import Mathlib

/-
  Verification of the Docker MCP Server's Multi-Source Query Aggregation
  Engine against its specification.

  The development is a shallow embedding of the TypeScript sources:
  - src/config/session-config.ts        (SessionConfigManager)
  - src/tools/session-config-tools.ts   (handleSetConnection)
  - src/utils/multi-docker-client.ts    (MultiDockerClient, multi-source)
  - src/utils/docker-client.ts          (MultiDockerClient, single-target,
                                         withTimeout, getEffectiveDockerHost)

  JavaScript-specific behaviour is made explicit:
  - `undefined`/optional values become `Option`;
  - string truthiness (`if (s)`) tests non-emptiness;
  - promise settlement times are threaded explicitly where a claim is
    about timeouts;
  - the aliasing of `this.config` in listener notification is threaded as
    explicit state (see `notifyListeners`).
-/

namespace DockerMCP

/-- JS truthiness of an optional string: `undefined` and `""` are falsy. -/
def truthy : Option String → Bool
  | none => false
  | some s => s != ""

/-- JS `x || null` on an optional string: keep `x` when truthy, else null. -/
def orNull (x : Option String) : Option String :=
  if truthy x then x else none

/-- JS `sub ∈ s` substring test over explicit character lists
(`String.prototype.includes`). -/
def containsSubAux (sub : List Char) : List Char → Bool
  | [] => sub.isEmpty
  | c :: rest => sub.isPrefixOf (c :: rest) || containsSubAux sub rest

/-- Embeds `s.includes(sub)` from JS, used by the aggregator's not-found test. -/
def containsSub (s sub : String) : Bool :=
  containsSubAux sub.toList s.toList

/-- Embeds `parseInt(p, 10)` restricted to all-digit strings. -/
def digitsToNat (s : String) : Nat :=
  s.foldl (fun n c => n * 10 + (c.toNat - '0'.toNat)) 0

/- ===================================================================
   Address pattern matchers, from `handleSetConnection`
   (src/tools/session-config-tools.ts, lines 101-137).  The three regexes
   are implemented over explicit character lists.
   =================================================================== -/

/-- Character class `[\w.-]` of the validation regex (ASCII `\w` plus dot
and hyphen). -/
def isWordChar (c : Char) : Bool :=
  c.isAlphanum || c == '_' || c == '.' || c == '-'

/-- Splitting a character list on a separator, with the semantics of
`String.prototype.split` / `String.splitOn` for a single-character
separator: `n` separators produce `n+1` (possibly empty) groups. -/
def splitOnChar (sep : Char) : List Char → List (List Char)
  | [] => [[]]
  | c :: cs =>
    if c == sep then [] :: splitOnChar sep cs
    else
      match splitOnChar sep cs with
      | [] => [[c]]
      | g :: gs => (c :: g) :: gs

/-- The anchored regex `^tcp:\/\/[\w.-]+:\d+$`: the literal `tcp://`,
then — since host characters exclude `:` and port characters are
digits — the remaining text decomposed at its unique colon into a
nonempty `[\w.-]` run and a nonempty digit run. -/
def matchesTcpPattern (s : String) : Bool :=
  if s.toList.take 6 = "tcp://".toList then
    match splitOnChar ':' (s.toList.drop 6) with
    | [h, p] => !h.isEmpty && h.all isWordChar && !p.isEmpty && p.all Char.isDigit
    | _ => false
  else false

/-- One group `\d{1,3}` of the dotted-IPv4 regex. -/
def isOctetRun (g : List Char) : Bool :=
  !g.isEmpty && g.length ≤ 3 && g.all Char.isDigit

/-- The anchored regex `^(\d{1,3}\.){3}\d{1,3}$` ("IP only"). -/
def matchesIpOnly (s : String) : Bool :=
  match splitOnChar '.' s.toList with
  | [a, b, c, d] => isOctetRun a && isOctetRun b && isOctetRun c && isOctetRun d
  | _ => false

/-- The anchored regex `^(\d{1,3}\.){3}\d{1,3}:\d+$` ("IP:port, scheme
missing"). -/
def matchesIpWithPort (s : String) : Bool :=
  match splitOnChar ':' s.toList with
  | [ip, p] => matchesIpOnly (String.mk ip) && !p.isEmpty && p.all Char.isDigit
  | _ => false

/- ===================================================================
   Session Configuration Store, from src/config/session-config.ts.
   =================================================================== -/

/-- Embeds `DockerSessionConfig`. `configuredAt : Date | null` is modelled as an
optional timestamp; mutators receive the current time as a parameter in
place of `new Date()`. -/
structure SessionCfg where
  dockerHost : Option String
  allowLocal : Bool
  securityMode : String
  auditLog : Bool
  logLevel : String
  configuredAt : Option Nat
  configuredBy : Option String
deriving DecidableEq, Repr

/-- What a listener invocation does with the configuration object handed
to it.  `notifyListeners` passes `this.config` itself — the live store
object, not a copy — so a listener can read it (`pure`), mutate it in
place (`mutate`), or throw (`throws`). -/
inductive ListenerAct where
  | pure
  | mutate (f : SessionCfg → SessionCfg)
  | throws

/-- A subscribed configuration listener. -/
def Listener := SessionCfg → ListenerAct

/-- A listener that never mutates the configuration object it receives. -/
def NonMutating (l : Listener) : Prop :=
  ∀ cfg f, l cfg ≠ ListenerAct.mutate f

/-- Embeds `notifyListeners` (session-config.ts lines 132-140): iterates the
listener array, calling each with `this.config` — the live configuration
object.  A throwing listener is caught and logged; the loop continues and
nothing is rolled back.  Because the argument aliases the store, an
in-place mutation performed by one listener is visible to the store and
to every later listener; the state threading makes that explicit.
Returns the final store configuration and the value each listener
observed at its own invocation. -/
def notifyListeners : List Listener → SessionCfg → SessionCfg × List SessionCfg
  | [], cfg => (cfg, [])
  | l :: ls, cfg =>
    let cfg1 := match l cfg with
      | .pure => cfg
      | .throws => cfg
      | .mutate f => f cfg
    let rest := notifyListeners ls cfg1
    (rest.1, cfg :: rest.2)

/-- The manager's private state: its configuration and listener array. -/
structure MgrState where
  config : SessionCfg
  listeners : List Listener

/-- Embeds `getConfig()` returns `{ ...this.config }`, a fresh copy of the
current configuration, and does not change the manager.  Modelled as an
explicit (value, post-state) pair so that "reading has no side effect"
is part of the definition translated from the code. -/
def getConfigCall (st : MgrState) : SessionCfg × MgrState :=
  (st.config, st)

/-- Embeds `setDockerHost(host)`: update the field, stamp `configuredAt` and
`configuredBy = 'session'`, then notify the listeners. -/
def setDockerHost (st : MgrState) (host : Option String) (now : Nat) :
    MgrState × List SessionCfg :=
  let cfg1 := { st.config with
    dockerHost := host, configuredAt := some now, configuredBy := some "session" }
  let n := notifyListeners st.listeners cfg1
  ({ st with config := n.1 }, n.2)

/-- Embeds `setAllowLocal(allow)`. -/
def setAllowLocal (st : MgrState) (allow : Bool) (now : Nat) :
    MgrState × List SessionCfg :=
  let cfg1 := { st.config with
    allowLocal := allow, configuredAt := some now, configuredBy := some "session" }
  let n := notifyListeners st.listeners cfg1
  ({ st with config := n.1 }, n.2)

/-- Embeds `setMultiple(updates)` with the fields `handleSetConnection` hands it
(securityMode, auditLog, logLevel); `Object.assign` keeps absent fields. -/
def setMultiple (st : MgrState) (securityMode : Option String)
    (auditLog : Option Bool) (logLevel : Option String) (now : Nat) :
    MgrState × List SessionCfg :=
  let c := st.config
  let cfg1 := { c with
    securityMode := securityMode.getD c.securityMode,
    auditLog := auditLog.getD c.auditLog,
    logLevel := logLevel.getD c.logLevel,
    configuredAt := some now, configuredBy := some "session" }
  let n := notifyListeners st.listeners cfg1
  ({ st with config := n.1 }, n.2)

/-- The process environment variables the store reads. -/
structure ProcessEnv where
  dockerHost : Option String
  allowLocalDocker : Option String
  securityMode : Option String
  securityAuditLog : Option String
  logLevel : Option String
deriving DecidableEq, Repr

/-- The configuration `resetToEnv()` rebuilds from the environment:
`DOCKER_HOST || null`, `ALLOW_LOCAL_DOCKER?.toLowerCase() === 'true'`,
`SECURITY_MODE || 'readonly'`,
`SECURITY_AUDIT_LOG?.toLowerCase() !== 'false'`, `LOG_LEVEL || 'info'`,
stamped `configuredAt = new Date()`, `configuredBy = 'env'`. -/
def cfgFromEnv (env : ProcessEnv) (now : Nat) : SessionCfg :=
  { dockerHost := orNull env.dockerHost
  , allowLocal := (env.allowLocalDocker.map String.toLower) == some "true"
  , securityMode := if truthy env.securityMode then env.securityMode.getD "" else "readonly"
  , auditLog := (env.securityAuditLog.map String.toLower) != some "false"
  , logLevel := if truthy env.logLevel then env.logLevel.getD "" else "info"
  , configuredAt := some now
  , configuredBy := some "env" }

/-- Embeds `resetToEnv()`: replace the configuration with the environment-derived
one, then notify the listeners. -/
def resetToEnv (st : MgrState) (env : ProcessEnv) (now : Nat) :
    MgrState × List SessionCfg :=
  let cfg1 := cfgFromEnv env now
  let n := notifyListeners st.listeners cfg1
  ({ st with config := n.1 }, n.2)

/- ===================================================================
   formatStats numeric semantics, from
   src/utils/multi-docker-client.ts lines 958-975.  JS numbers are
   modelled as rationals; the exactly-representable inputs the claims
   use make this faithful.
   =================================================================== -/

/-- Embeds `Math.round`: round half towards positive infinity, which is exactly
Mathlib's `round` on rationals. -/
def jsRound (x : ℚ) : ℤ := round x

/-- Embeds `Math.round(x * 100) / 100` — two-decimal display rounding. -/
def round2 (x : ℚ) : ℚ := (jsRound (x * 100) : ℚ) / 100

/-- Embeds `systemDelta > 0 ? (cpuDelta / systemDelta) * 100 : 0` — the CPU
percentage expression shared by `formatStats` and `getContainerStats`. -/
def computeCpuPercent (cpuDelta systemDelta : ℚ) : ℚ :=
  if 0 < systemDelta then cpuDelta / systemDelta * 100 else 0

/-- Embeds `x || 1` on an optional JS number (`memory_stats.limit || 1`):
`undefined` and `0` both fall back to `1`. -/
def jsOrOne (x : Option ℚ) : ℚ :=
  match x with
  | none => 1
  | some v => if v = 0 then 1 else v

/-- Embeds `x || 0` on an optional JS number. -/
def jsOrZero (x : Option ℚ) : ℚ := x.getD 0

/-- The fields of a dockerode stats record that `formatStats` reads.
Optional fields mirror the `?.` / `|| 0` guards in the source. -/
structure RawStats where
  cpuTotalUsage : ℚ
  precpuTotalUsage : Option ℚ
  systemCpuUsage : Option ℚ
  precpuSystemUsage : Option ℚ
  memUsage : Option ℚ
  memLimit : Option ℚ
deriving DecidableEq, Repr

/-- The multi-source client's canonical stats shape. -/
structure FormattedStats where
  cpuPercent : ℚ
  memoryUsageMb : ℚ
  memoryLimitMb : ℚ
  memoryPercent : ℚ
deriving DecidableEq, Repr

/-- Embeds `MultiDockerClient.formatStats` (multi-docker-client.ts 958-975). -/
def formatStats (stats : RawStats) : FormattedStats :=
  let cpuDelta := stats.cpuTotalUsage - jsOrZero stats.precpuTotalUsage
  let systemDelta := jsOrZero stats.systemCpuUsage - jsOrZero stats.precpuSystemUsage
  let cpuPercent := computeCpuPercent cpuDelta systemDelta
  let memUsage := jsOrZero stats.memUsage
  let memLimit := jsOrOne stats.memLimit
  let memPercent := memUsage / memLimit * 100
  { cpuPercent := round2 cpuPercent
  , memoryUsageMb := round2 (memUsage / 1024 / 1024)
  , memoryLimitMb := round2 (memLimit / 1024 / 1024)
  , memoryPercent := round2 memPercent }

/- ===================================================================
   Source Registry, from MultiDockerClient's constructor /
   reinitialize / initializeRemoteSources / initializeLocalSource
   (multi-docker-client.ts lines 356-505).
   =================================================================== -/

/-- Embeds `type: 'local' | 'remote'` of a Docker source. -/
inductive SrcKind where
  | localSrc
  | remoteSrc
deriving DecidableEq, Repr

/-- Embeds `status` of a source. -/
inductive SrcStatus where
  | connected
  | disconnected
  | errorStatus
deriving DecidableEq, Repr

/-- The options a `new Docker({...})` connection handle is built from.
`none` stands for a field explicitly passed as `undefined` or omitted. -/
structure DockerOptions where
  socketPath : Option String
  host : Option String
  port : Option Nat
  timeout : Option Nat
deriving DecidableEq, Repr

/-- A registered Docker source; the `client` handle is represented by the
options it was constructed from. -/
structure DockerSource where
  name : String
  kind : SrcKind
  host : String
  clientOptions : DockerOptions
  status : SrcStatus
  error : Option String
deriving DecidableEq, Repr

/-- The text after `tcp://` parsed by the unanchored regex
`tcp:\/\/([^:]+):(\d+)`: a nonempty colon-free host run up to the first
colon, then a nonempty maximal digit run; trailing text is allowed. -/
def parseTcpAfter (cs : List Char) : Option (String × String) :=
  let h := cs.takeWhile (fun c => c != ':')
  match cs.dropWhile (fun c => c != ':') with
  | ':' :: rest =>
    let d := rest.takeWhile Char.isDigit
    if h.isEmpty || d.isEmpty then none else some (String.mk h, String.mk d)
  | _ => none

/-- First match of the unanchored regex `tcp:\/\/([^:]+):(\d+)`: the
engine tries each start position in order, requiring the literal
`tcp://` there; on a failed tail parse it resumes one position later. -/
def findTcpMatch : List Char → Option (String × String)
  | [] => none
  | c :: rest =>
    if (c :: rest).take 6 = "tcp://".toList then
      match parseTcpAfter ((c :: rest).drop 6) with
      | some hp => some hp
      | none => findTcpMatch rest
    else findTcpMatch rest

/-- Embeds `s.match(/tcp:\/\/([^:]+):(\d+)/)` returning the two capture groups. -/
def matchTcp (s : String) : Option (String × String) :=
  findTcpMatch s.toList

/-- Embeds `initializeRemoteSources` (multi-docker-client.ts 437-454): when the
configured remote host string is truthy and matches the tcp regex,
register one remote source named "阿里云 ECS", built from host and port
only, with status `disconnected` (reachability is probed lazily). -/
def initRemoteSources (remoteHost : String) : List DockerSource :=
  if remoteHost == "" then []
  else
    match matchTcp remoteHost with
    | some hp =>
      [ { name := "阿里云 ECS"
        , kind := .remoteSrc
        , host := hp.1 ++ ":" ++ hp.2
        , clientOptions :=
            { socketPath := none, host := some hp.1
            , port := some (digitsToNat hp.2), timeout := none }
        , status := .disconnected
        , error := none } ]
    | none => []

/-- The platform-dependent local socket path. -/
def localSocketPath (isWindows : Bool) : String :=
  if isWindows then "//./pipe/docker_engine" else "/var/run/docker.sock"

/-- The local client is constructed from `socketPath` alone, with `host`
and `port` explicitly `undefined` so dockerode cannot silently fall back
to the `DOCKER_HOST` environment transport. -/
def localClientOptions (isWindows : Bool) : DockerOptions :=
  { socketPath := some (localSocketPath isWindows)
  , host := none, port := none, timeout := none }

/-- The registry entry `initializeLocalSource` pushes after a successful
ping. -/
def localSourceEntry (isWindows : Bool) : DockerSource :=
  { name := "本地 Docker Desktop", kind := .localSrc, host := "local"
  , clientOptions := localClientOptions isWindows
  , status := .connected, error := none }

/-- Embeds `initializeLocalSource` (multi-docker-client.ts 463-505): ping the
local client first; only on success is the local source appended.  On a
ping failure nothing is added at all. -/
def initLocalSource (pingOk : Bool) (isWindows : Bool)
    (sources : List DockerSource) : List DockerSource :=
  if pingOk then sources ++ [localSourceEntry isWindows] else sources

/-- The configuration slice the multi-source client derives its registry
from: `remoteHost = config.dockerHost || ''` and `allowLocal`. -/
structure ClientCfg where
  remoteHost : String
  allowLocal : Bool
deriving DecidableEq, Repr

/-- The registry states reachable under a fixed configuration: both the
constructor and `reinitialize` first build the remote sources
synchronously, then — only when `allowLocal` — run the asynchronous
local probe, whose ping outcome is `pingOk`.  `remoteOnly` also covers
the window before the local probe resolves. -/
inductive RegistryReachable (cfg : ClientCfg) (isWindows : Bool) :
    List DockerSource → Prop where
  | remoteOnly : RegistryReachable cfg isWindows (initRemoteSources cfg.remoteHost)
  | withLocalProbe (pingOk : Bool) (h : cfg.allowLocal = true) :
      RegistryReachable cfg isWindows
        (initLocalSource pingOk isWindows (initRemoteSources cfg.remoteHost))

/- ===================================================================
   Aggregator, from MultiDockerClient.listContainers / getContainer /
   getContainerLogs / getContainerStats / listImages / getImage
   (multi-docker-client.ts lines 552-930).
   =================================================================== -/

/-- The error object a rejected dockerode call carries
(`DockerError extends Error { statusCode?, code? }`). -/
structure DockerErr where
  statusCode : Option Nat
  code : Option String
  message : String
deriving DecidableEq, Repr

/-- A backend reply: the settled value of one per-source Docker API
call (already mapped through the per-item formatter where the source
maps one). -/
inductive BackendReply (α : Type) where
  | ok (v : α)
  | fail (e : DockerErr)
deriving DecidableEq, Repr

/-- Per-source outcome status plus payload or error text
(`status: 'success' | 'error'` with `data?` / `error?`). -/
inductive QueryResult (α : Type) where
  | ok (v : α)
  | err (msg : String)
deriving DecidableEq, Repr

/-- Embeds `r.status === 'success'`. -/
def QueryResult.isOk {α : Type} : QueryResult α → Bool
  | .ok _ => true
  | .err _ => false

/-- One element of the `sources` array of a multi-source result. -/
structure SrcOutcome (α : Type) where
  name : String
  kind : SrcKind
  host : String
  result : QueryResult α
deriving DecidableEq, Repr

/-- Embeds `(error as DockerError).message || '连接失败'`. -/
def errText (e : DockerErr) : String :=
  if e.message == "" then "连接失败" else e.message

/-- Error text of the inspect-style operations: a 404 becomes
"<entity> <id> 不存在", everything else the raw message. -/
def inspectErrText (entity id : String) (e : DockerErr) : String :=
  if e.statusCode == some 404 then entity ++ " " ++ id ++ " 不存在" else errText e

/-- Build the per-source outcome from a settled backend reply, mapping a
rejection through the operation's error-text function. -/
def outcomeOf {α : Type} (mapErr : DockerErr → String) (src : DockerSource)
    (r : BackendReply α) : SrcOutcome α :=
  { name := src.name, kind := src.kind, host := src.host
  , result := match r with
      | .ok v => .ok v
      | .fail e => .err (mapErr e) }

/-- Embeds `{ ...item, source: r.name, sourceType: r.type }` — an item of a
combined list, tagged with the label and kind of its source. -/
structure Tagged (α : Type) where
  item : α
  source : String
  sourceType : SrcKind
deriving DecidableEq, Repr

/-- Embeds `status: 'success' | 'partial' | 'no_docker_found'`. -/
inductive AggStatus where
  | success
  | partialResult
  | noDockerFound
deriving DecidableEq, Repr

/-- A `MultiSourceResult`: `sources` holds per-source payloads of type
`α`, `combined` the merged payload of type `β`. -/
structure AggResult (α β : Type) where
  status : AggStatus
  sources : List (SrcOutcome α)
  combined : Option β
  message : String
  setup_guide : Option String
deriving DecidableEq, Repr

/-- Embeds `getSetupGuide()`.  The banner is a long fixed remediation text; only
its presence matters to the engine's contract, so the constant keeps the
headline and elides the rest of the banner. -/
def setupGuideText : String :=
  "🔧 Docker MCP Server 配置指南 — ❌ 未检测到任何可用的 Docker 连接！（配置选项 1/2/3 的完整指引文本从略）"

/-- The early return shared by every aggregated operation when the
registry is empty. -/
def noSourcesResult (α β : Type) : AggResult α β :=
  { status := .noDockerFound, sources := [], combined := none
  , message := "❌ 未配置任何 Docker 源", setup_guide := some setupGuideText }

/-- Embeds `r.data || []` of a list-style outcome. -/
def dataOf {α : Type} (r : SrcOutcome (List α)) : List α :=
  match r.result with
  | .ok v => v
  | .err _ => []

/-- Embeds `results.find(r => r.status === 'success')` together with the
`successResult.data!` read: the first ok outcome and its payload. -/
def firstOk {α : Type} : List (SrcOutcome α) → Option (SrcOutcome α × α)
  | [] => none
  | r :: rs =>
    match r.result with
    | .ok v => some (r, v)
    | .err _ => firstOk rs

/-- Embeds `MultiDockerClient.listContainers` (lines 557-615).  The per-source
call `source.client.listContainers({all})` followed by the
`formatContainer` map is abstracted as `fetch`, the settled per-source
reply; `Promise.all` over `sources.map` keeps registry order. -/
def listContainersAgg {α : Type} (sources : List DockerSource)
    (fetch : DockerSource → BackendReply (List α)) :
    AggResult (List α) (List (Tagged α)) :=
  if sources.isEmpty then noSourcesResult _ _
  else
    let results := sources.map (fun s => outcomeOf errText s (fetch s))
    let successResults := results.filter (fun r => r.result.isOk)
    let allContainers := successResults.flatMap
      (fun r => (dataOf r).map (fun c => ⟨c, r.name, r.kind⟩))
    if successResults.isEmpty then
      { status := .noDockerFound, sources := results, combined := none
      , message := "❌ 所有 Docker 源均连接失败", setup_guide := some setupGuideText }
    else
      { status := if successResults.length == results.length then .success else .partialResult
      , sources := results
      , combined := some allContainers
      , message :=
          if successResults.length == results.length then
            "✅ 已从 " ++ toString successResults.length ++ " 个源获取容器列表"
          else
            "⚠️ 部分源连接成功 (" ++ toString successResults.length ++ "/"
              ++ toString results.length ++ ")"
      , setup_guide := none }

/-- Embeds `MultiDockerClient.listImages` (lines 814-870): same merge as
`listContainers`; the message is the success phrasing in both the full
and the partial case. -/
def listImagesAgg {α : Type} (sources : List DockerSource)
    (fetch : DockerSource → BackendReply (List α)) :
    AggResult (List α) (List (Tagged α)) :=
  if sources.isEmpty then noSourcesResult _ _
  else
    let results := sources.map (fun s => outcomeOf errText s (fetch s))
    let successResults := results.filter (fun r => r.result.isOk)
    let allImages := successResults.flatMap
      (fun r => (dataOf r).map (fun c => ⟨c, r.name, r.kind⟩))
    if successResults.isEmpty then
      { status := .noDockerFound, sources := results, combined := none
      , message := "❌ 所有 Docker 源均连接失败", setup_guide := some setupGuideText }
    else
      { status := if successResults.length == results.length then .success else .partialResult
      , sources := results
      , combined := some allImages
      , message := "✅ 已从 " ++ toString successResults.length ++ " 个源获取镜像列表"
      , setup_guide := none }

/-- Embeds `results.every(r => r.error?.includes('不存在'))`: an ok outcome has
no `error` field, so `?.` makes it falsy. -/
def outcomeNotFound {α : Type} (r : SrcOutcome α) : Bool :=
  match r.result with
  | .err e => containsSub e "不存在"
  | .ok _ => false

/-- Embeds `MultiDockerClient.getContainer` (lines 620-679): first ok outcome
wins; with none, "all 404" is distinguished from connectivity failure by
scanning the error texts for 不存在. -/
def getContainerAgg {α : Type} (sources : List DockerSource) (containerId : String)
    (fetch : DockerSource → BackendReply α) : AggResult α (Tagged α) :=
  if sources.isEmpty then noSourcesResult _ _
  else
    let results := sources.map
      (fun s => outcomeOf (inspectErrText "容器" containerId) s (fetch s))
    match firstOk results with
    | none =>
      let allNotFound := results.all outcomeNotFound
      { status := .noDockerFound, sources := results, combined := none
      , message :=
          if allNotFound then "❌ 容器 " ++ containerId ++ " 在所有源中都不存在"
          else "❌ 所有 Docker 源均连接失败"
      , setup_guide := if allNotFound then none else some setupGuideText }
    | some rv =>
      { status := .success, sources := results
      , combined := some ⟨rv.2, rv.1.name, rv.1.kind⟩
      , message := "✅ 在 " ++ rv.1.name ++ " 中找到容器", setup_guide := none }

/-- Embeds `MultiDockerClient.getContainerLogs` (lines 684-746): first ok
outcome wins; combined is its data untagged; any total failure uses one
fixed message plus the setup guide. -/
def getLogsAgg {α : Type} (sources : List DockerSource) (containerId : String)
    (fetch : DockerSource → BackendReply α) : AggResult α α :=
  if sources.isEmpty then noSourcesResult _ _
  else
    let results := sources.map
      (fun s => outcomeOf (inspectErrText "容器" containerId) s (fetch s))
    match firstOk results with
    | none =>
      { status := .noDockerFound, sources := results, combined := none
      , message := "❌ 无法获取容器日志", setup_guide := some setupGuideText }
    | some rv =>
      { status := .success, sources := results, combined := some rv.2
      , message := "✅ 从 " ++ rv.1.name ++ " 获取日志", setup_guide := none }

/-- Embeds `MultiDockerClient.getContainerStats` (lines 751-807): same shape as
the logs query. -/
def getStatsAgg {α : Type} (sources : List DockerSource) (containerId : String)
    (fetch : DockerSource → BackendReply α) : AggResult α α :=
  if sources.isEmpty then noSourcesResult _ _
  else
    let results := sources.map
      (fun s => outcomeOf (inspectErrText "容器" containerId) s (fetch s))
    match firstOk results with
    | none =>
      { status := .noDockerFound, sources := results, combined := none
      , message := "❌ 无法获取容器统计", setup_guide := some setupGuideText }
    | some rv =>
      { status := .success, sources := results, combined := some rv.2
      , message := "✅ 从 " ++ rv.1.name ++ " 获取统计", setup_guide := none }

/-- Embeds `MultiDockerClient.getImage` (lines 875-930): first ok outcome wins;
with none, the message is always the "不存在 in every source" phrasing —
regardless of the error class — and no setup guide is attached. -/
def getImageAgg {α : Type} (sources : List DockerSource) (imageId : String)
    (fetch : DockerSource → BackendReply α) : AggResult α (Tagged α) :=
  if sources.isEmpty then noSourcesResult _ _
  else
    let results := sources.map
      (fun s => outcomeOf (inspectErrText "镜像" imageId) s (fetch s))
    match firstOk results with
    | none =>
      { status := .noDockerFound, sources := results, combined := none
      , message := "❌ 镜像 " ++ imageId ++ " 在所有源中都不存在"
      , setup_guide := none }
    | some rv =>
      { status := .success, sources := results
      , combined := some ⟨rv.2, rv.1.name, rv.1.kind⟩
      , message := "✅ 在 " ++ rv.1.name ++ " 中找到镜像", setup_guide := none }

/- ===================================================================
   Timeout-guarded invoker and single-target client, from
   src/utils/docker-client.ts.
   =================================================================== -/

/-- Embeds `DEFAULT_TIMEOUT = 10000` milliseconds. -/
def DEFAULT_TIMEOUT : Nat := 10000

/-- Denotation of one backend promise: the time at which it settles
(`none` = it never settles) and the value or rejection it settles
with. -/
structure OpBehavior (α : Type) where
  settlesAt : Option Nat
  result : BackendReply α

/-- The message of the timeout rejection:
"`operation`超时（`timeoutMs / 1000`秒）- 请检查：…".  The division is
JS numeric division; every call site uses a multiple of 1000, on which
natural division agrees. -/
def timeoutMessage (operation : String) (timeoutMs : Nat) : String :=
  operation ++ "超时（" ++ toString (timeoutMs / 1000)
    ++ "秒）- 请检查：1) Docker 服务是否运行 2) 端口是否正确 3) 防火墙是否放行"

/-- The `Error` the deadline timer rejects with (a plain Error: no
`statusCode`, no `code`). -/
def timeoutErr (operation : String) (timeoutMs : Nat) : DockerErr :=
  { statusCode := none, code := none, message := timeoutMessage operation timeoutMs }

/-- Embeds `withTimeout(promise, timeoutMs, operation)` (docker-client.ts
1122-1143): a race between the operation and a deadline timer.  The
operation wins when it settles strictly before the deadline; otherwise
the timer's rejection wins.  The second component records that
`clearTimeout` runs on both the success and the failure path, so the
timer is cleaned up whichever branch wins. -/
def withTimeout {α : Type} (op : OpBehavior α) (timeoutMs : Nat)
    (operation : String) : BackendReply α × Bool :=
  match op.settlesAt with
  | some t =>
    if t < timeoutMs then (op.result, true)
    else (.fail (timeoutErr operation timeoutMs), true)
  | none => (.fail (timeoutErr operation timeoutMs), true)

/-- One per-source backend call of the multi-source
`MultiDockerClient.listContainers` (lines 570-590):
`await source.client.listContainers({ all })` is issued with no timeout
wrapper and the source's client options carry no timeout either, so the
per-source outcome is available exactly when — and only when — the
backend settles, at whatever time that is; a never-settling backend
leaves the per-source promise, and hence the surrounding `Promise.all`,
pending forever (`none`). -/
def multiListOneTimed {α : Type} (src : DockerSource)
    (op : OpBehavior (List α)) : Option (SrcOutcome (List α)) :=
  match op.settlesAt with
  | none => none
  | some _ => some (outcomeOf errText src op.result)

/-- Embeds `s.startsWith('tcp://')` from JS: a prefix test on the character
sequence. -/
def jsStartsWithTcp (s : String) : Bool :=
  "tcp://".toList.isPrefixOf s.toList

/-- Embeds `getEffectiveDockerHost(paramHost?)` (docker-client.ts 1149-1163).
The session value is `getSessionConfig().getDockerHost()` and the
environment value is `process.env.DOCKER_HOST`, both passed here as
parameters.  A call-scoped parameter is used when truthy and starting
with `tcp://`; else a truthy session value; else `DOCKER_HOST || null`. -/
def getEffectiveDockerHost (paramHost sessionHost envHost : Option String) :
    Option String :=
  if truthy paramHost && jsStartsWithTcp (paramHost.getD "") then paramHost
  else if truthy sessionHost then sessionHost
  else orNull envHost

/-- Embeds `parseDockerHost` (docker-client.ts 1097-1103): the same unanchored
`tcp:\/\/([^:]+):(\d+)` match, returning host and `parseInt(port, 10)`. -/
def parseDockerHost (dockerHost : String) : Option (String × Nat) :=
  (matchTcp dockerHost).map (fun hp => (hp.1, digitsToNat hp.2))

/-- Embeds `createDockerClient` (docker-client.ts 1108-1116): `null` on a parse
failure, else a client built from host, port and `DEFAULT_TIMEOUT`. -/
def createDockerClient (dockerHost : String) : Option DockerOptions :=
  (parseDockerHost dockerHost).map (fun hp =>
    { socketPath := none, host := some hp.1, port := some hp.2
    , timeout := some DEFAULT_TIMEOUT })

/-- Embeds `getConnectionErrorHint` (docker-client.ts 1214-1225). -/
def getConnectionErrorHint (e : DockerErr) : String :=
  if containsSub e.message "超时" then
    "排查建议: 1) 检查 IP 和端口是否正确 2) 检查云服务器安全组是否放行该端口 3) 检查 Docker 是否配置了 TCP 监听"
  else if e.code == some "ECONNREFUSED" then
    "连接被拒绝: Docker 服务可能未启动，或未监听该端口。请检查 Docker 配置。"
  else if e.code == some "ENOTFOUND" || e.code == some "EAI_AGAIN" then
    "域名/IP 解析失败: 请检查地址是否正确。"
  else "请检查 Docker 服务状态和网络连接。"

/-- A `DockerResult<T>` of the single-target client. -/
structure DockerResult (α : Type) where
  success : Bool
  data : Option α
  error : Option String
  host : Option String
  hint : Option String
deriving DecidableEq, Repr

/-- The single-target `MultiDockerClient.listContainers` (docker-client.ts
1230-1276): resolve the effective host, build the client, then run the
backend call through `withTimeout(…, DEFAULT_TIMEOUT, '列出容器')`; a
rejection — the timeout rejection included — is caught and returned as a
data-level failure with a hint.  The per-item formatting of the
container records is abstracted into the payload of `op`. -/
def singleListContainers {α : Type} (paramHost sessionHost envHost : Option String)
    (op : OpBehavior (List α)) : DockerResult (List α) :=
  match getEffectiveDockerHost paramHost sessionHost envHost with
  | none =>
    { success := false, data := none
    , error := some "未配置 Docker 连接。请传入 docker_host 参数（如 tcp://192.168.1.100:2375）"
    , host := none
    , hint := some "示例: \x7b\"docker_host\": \"tcp://192.168.1.100:2375\", \"only_running\": true\x7d" }
  | some h =>
    match createDockerClient h with
    | none =>
      { success := false, data := none, error := some ("无效的 Docker 地址: " ++ h)
      , host := none, hint := none }
    | some _client =>
      match (withTimeout op DEFAULT_TIMEOUT "列出容器").1 with
      | .ok cs =>
        { success := true, data := some cs, error := none, host := some h, hint := none }
      | .fail e =>
        { success := false, data := none, error := some ("查询失败: " ++ e.message)
        , host := some h, hint := some (getConnectionErrorHint e) }

/- ===================================================================
   docker_set_connection handler, from
   src/tools/session-config-tools.ts lines 93-178.
   =================================================================== -/

/-- The parsed `SetConnectionSchema` parameters (all optional). -/
structure SetConnParams where
  docker_host : Option String
  allow_local : Option Bool
  security_mode : Option String
  audit_log : Option Bool
  log_level : Option String
deriving Repr

/-- The observable slice of `handleSetConnection`'s reply. -/
structure SetConnResult where
  success : Bool
  error : Option String
  suggestion : Option String
  hint : Option String
deriving DecidableEq, Repr

/-- The tail of `handleSetConnection` after the docker_host branch:
apply `allow_local` through `setAllowLocal`, batch the remaining fields
through `setMultiple`, and report success. -/
def setConnTail (p : SetConnParams) (st : MgrState) (now : Nat) :
    SetConnResult × MgrState :=
  let st1 := match p.allow_local with
    | some b => (setAllowLocal st b now).1
    | none => st
  let st2 :=
    if p.security_mode.isSome || p.audit_log.isSome || p.log_level.isSome then
      (setMultiple st1 p.security_mode p.audit_log p.log_level now).1
    else st1
  ({ success := true, error := none, suggestion := none, hint := none }, st2)

/-- Embeds `handleSetConnection` (session-config-tools.ts 93-178).  A
`docker_host` of `''` or `'null'` clears the session target through
`setDockerHost(null)` with no format check at all; otherwise the strict
tcp pattern gates `setDockerHost`, and the two diagnostic patterns
produce early-return errors carrying a corrected suggestion — without
touching the store. -/
def handleSetConnection (p : SetConnParams) (st : MgrState) (now : Nat) :
    SetConnResult × MgrState :=
  match p.docker_host with
  | some dh =>
    if dh == "" || dh == "null" then
      setConnTail p (setDockerHost st none now).1 now
    else if matchesTcpPattern dh then
      setConnTail p (setDockerHost st (some dh) now).1 now
    else if matchesIpOnly dh then
      ( { success := false
        , error := some ("检测到您只提供了 IP 地址 \"" ++ dh
            ++ "\"。请确认 Docker TCP 端口（通常是 2375），然后使用完整格式：tcp://"
            ++ dh ++ ":2375")
        , suggestion := some ("tcp://" ++ dh ++ ":2375")
        , hint := some "请用户确认端口号后再设置，不要自动补全。" }, st)
    else if matchesIpWithPort dh then
      ( { success := false
        , error := some ("格式不完整，缺少 tcp:// 前缀。请使用完整格式：tcp://" ++ dh)
        , suggestion := some ("tcp://" ++ dh)
        , hint := none }, st)
    else
      ( { success := false
        , error := some "docker_host 格式错误，必须是 tcp://IP:端口 格式（如 tcp://192.168.1.100:2375）"
        , suggestion := none, hint := none }, st)
  | none => setConnTail p st now

/- ===================================================================
   Specification-side characterisations, stated independently of the
   aggregation and validation code, plus concrete fixtures used by the
   witnesses.
   =================================================================== -/

/-- Embeds `r.ok` of a backend reply. -/
def BackendReply.isOk {α : Type} : BackendReply α → Bool
  | .ok _ => true
  | .fail _ => false

/-- The sub-sequence of sources whose backend call settled ok, in
registry order. -/
def okSources {α : Type} (sources : List DockerSource)
    (fetch : DockerSource → BackendReply α) : List DockerSource :=
  sources.filter (fun s => (fetch s).isOk)

/-- The registry-ordered concatenation of the successful sources' items,
each tagged with its source's label and kind — the merge the
specification prescribes for list queries, written directly over the
sources rather than over the aggregator's intermediate results. -/
def taggedOkItems {α : Type} (sources : List DockerSource)
    (fetch : DockerSource → BackendReply (List α)) : List (Tagged α) :=
  sources.flatMap (fun s =>
    match fetch s with
    | .ok xs => xs.map (fun c => ⟨c, s.name, s.kind⟩)
    | .fail _ => [])

/-- The shape the validation regex `^tcp:\/\/[\w.-]+:\d+$` accepts,
written as an explicit decomposition: the literal `tcp://`, a nonempty
`[\w.-]` host run, a colon, and a nonempty digit run. -/
def TcpShape (s : String) : Prop :=
  ∃ h p : List Char,
    s.toList = "tcp://".toList ++ (h ++ ':' :: p) ∧
    h ≠ [] ∧ (∀ c ∈ h, isWordChar c = true) ∧
    p ≠ [] ∧ (∀ c ∈ p, Char.isDigit c = true)

/-- The configuration `setDockerHost` installs before notifying. -/
def stampDockerHost (c : SessionCfg) (h : Option String) (now : Nat) : SessionCfg :=
  { c with dockerHost := h, configuredAt := some now, configuredBy := some "session" }

/-- The configuration `setAllowLocal` installs before notifying. -/
def stampAllowLocal (c : SessionCfg) (b : Bool) (now : Nat) : SessionCfg :=
  { c with allowLocal := b, configuredAt := some now, configuredBy := some "session" }

/-- The configuration `setMultiple` installs before notifying. -/
def stampMultiple (c : SessionCfg) (sm : Option String) (al : Option Bool)
    (ll : Option String) (now : Nat) : SessionCfg :=
  { c with securityMode := sm.getD c.securityMode, auditLog := al.getD c.auditLog
         , logLevel := ll.getD c.logLevel
         , configuredAt := some now, configuredBy := some "session" }

/-- Fixture: an initial, unconfigured session configuration. -/
def exCfg0 : SessionCfg :=
  { dockerHost := none, allowLocal := false, securityMode := "readonly"
  , auditLog := true, logLevel := "info", configuredAt := none, configuredBy := none }

/-- Fixture: a manager state with no listeners. -/
def exState : MgrState := { config := exCfg0, listeners := [] }

/-- Fixture: a process environment with a remote host configured. -/
def exEnv : ProcessEnv :=
  { dockerHost := some "tcp://10.0.0.1:2375", allowLocalDocker := none
  , securityMode := none, securityAuditLog := none, logLevel := none }

/-- Fixture: a listener that throws on every notification. -/
def exThrower : Listener := fun _ => .throws

/-- Fixture: a well-behaved listener. -/
def exPure : Listener := fun _ => .pure

/-- Fixture: a listener that mutates the configuration object handed to
it, flipping `allowLocal`. -/
def exMutator : Listener := fun _ => .mutate (fun c => { c with allowLocal := true })

/-- Fixture: a remote source. -/
def exSrcA : DockerSource :=
  { name := "阿里云 ECS", kind := .remoteSrc, host := "1.2.3.4:2375"
  , clientOptions := { socketPath := none, host := some "1.2.3.4", port := some 2375, timeout := none }
  , status := .disconnected, error := none }

/-- Fixture: a local source. -/
def exSrcB : DockerSource := localSourceEntry false

/-- Fixture: a per-source behaviour where source A replies ok and every
other source fails with a connection refusal. -/
def exFetchMixed : DockerSource → BackendReply Nat := fun s =>
  if s.name == "阿里云 ECS" then .ok 7
  else .fail { statusCode := none, code := some "ECONNREFUSED", message := "connect ECONNREFUSED 127.0.0.1:2375" }

/-- Fixture: every source fails with a connection refusal. -/
def exFetchConnFail : DockerSource → BackendReply Nat := fun _ =>
  .fail { statusCode := none, code := some "ECONNREFUSED", message := "connect ECONNREFUSED 127.0.0.1:2375" }

/-- Fixture: every source fails with a 404. -/
def exFetchNotFound : DockerSource → BackendReply Nat := fun _ =>
  .fail { statusCode := some 404, code := none, message := "no such container" }

/-- Fixture: list-style behaviour, ok on source A only. -/
def exFetchListMixed : DockerSource → BackendReply (List Nat) := fun s =>
  if s.name == "阿里云 ECS" then .ok [1, 2]
  else .fail { statusCode := none, code := some "ECONNREFUSED", message := "connect ECONNREFUSED 127.0.0.1:2375" }

/- ===================================================================
   Auxiliary lemmas.
   =================================================================== -/

theorem aux_splitOnChar_ne_nil (sep : Char) (cs : List Char) :
    splitOnChar sep cs ≠ [] := by
  induction cs with
  | nil => simp [splitOnChar]
  | cons c cs ih =>
    simp only [splitOnChar]
    split
    · simp
    · cases h : splitOnChar sep cs with
      | nil => exact absurd h ih
      | cons g gs => simp

theorem aux_splitOnChar_single (sep : Char) (g : List Char)
    (h : ∀ c ∈ g, (c == sep) = false) : splitOnChar sep g = [g] := by
  induction g with
  | nil => rfl
  | cons c cs ih =>
    have hc : (c == sep) = false := h c (by simp)
    have ihc := ih (fun x hx => h x (by simp [hx]))
    simp [splitOnChar, hc, ihc]

theorem aux_splitOnChar_append (sep : Char) (g rest : List Char)
    (h : ∀ c ∈ g, (c == sep) = false) :
    splitOnChar sep (g ++ sep :: rest) = g :: splitOnChar sep rest := by
  induction g with
  | nil => simp [splitOnChar]
  | cons c cs ih =>
    have hc : (c == sep) = false := h c (by simp)
    have ihc := ih (fun x hx => h x (by simp [hx]))
    simp [splitOnChar, hc, ihc]

theorem aux_splitOnChar_eq_single (sep : Char) (cs g : List Char)
    (h : splitOnChar sep cs = [g]) :
    cs = g ∧ ∀ c ∈ g, (c == sep) = false := by
  induction cs generalizing g with
  | nil =>
    simp [splitOnChar] at h
    subst h
    simp
  | cons c cs ih =>
    simp only [splitOnChar] at h
    by_cases hc : (c == sep) = true
    · rw [if_pos hc] at h
      have := aux_splitOnChar_ne_nil sep cs
      simp at h
      exact absurd h.2 this
    · rw [if_neg hc] at h
      cases hsp : splitOnChar sep cs with
      | nil => exact absurd hsp (aux_splitOnChar_ne_nil sep cs)
      | cons g1 gs =>
        rw [hsp] at h
        simp at h
        obtain ⟨hg, hgs⟩ := h
        have hsingle : splitOnChar sep cs = [g1] := by rw [hsp, hgs]
        obtain ⟨hcs, hnosep⟩ := ih g1 hsingle
        subst hcs
        refine ⟨by rw [hg], ?_⟩
        intro x hx
        rw [← hg] at hx
        rcases List.mem_cons.mp hx with h1 | h2
        · subst h1; simpa using hc
        · exact hnosep x h2

theorem aux_splitOnChar_eq_pair (sep : Char) (cs h p : List Char)
    (hs : splitOnChar sep cs = [h, p]) :
    cs = h ++ sep :: p ∧ (∀ c ∈ h, (c == sep) = false) ∧
      (∀ c ∈ p, (c == sep) = false) := by
  induction cs generalizing h with
  | nil => simp [splitOnChar] at hs
  | cons c cs ih =>
    simp only [splitOnChar] at hs
    by_cases hc : (c == sep) = true
    · rw [if_pos hc] at hs
      simp at hs
      obtain ⟨hh, hrest⟩ := hs
      obtain ⟨hcs, hnosep⟩ := aux_splitOnChar_eq_single sep cs p hrest
      subst hcs
      have hceq : c = sep := by simpa using hc
      subst hh
      exact ⟨by rw [hceq]; rfl, by simp, hnosep⟩
    · rw [if_neg hc] at hs
      cases hsp : splitOnChar sep cs with
      | nil => exact absurd hsp (aux_splitOnChar_ne_nil sep cs)
      | cons g1 gs =>
        rw [hsp] at hs
        simp at hs
        obtain ⟨hh, hgs⟩ := hs
        have hpair : splitOnChar sep cs = [g1, p] := by rw [hsp, hgs]
        obtain ⟨hcs, hno1, hno2⟩ := ih g1 hpair
        subst hcs
        refine ⟨by rw [← hh]; simp, ?_, hno2⟩
        intro x hx
        rw [← hh] at hx
        rcases List.mem_cons.mp hx with h1 | h2
        · subst h1; simpa using hc
        · exact hno1 x h2

theorem aux_isWordChar_ne_colon (c : Char) (h : isWordChar c = true) :
    (c == ':') = false := by
  by_contra hne
  have : c = ':' := by
    have := Bool.not_eq_false _ |>.mp hne
    exact eq_of_beq this
  subst this
  simp [isWordChar] at h

theorem aux_isDigit_ne_colon (c : Char) (h : Char.isDigit c = true) :
    (c == ':') = false := by
  by_contra hne
  have : c = ':' := by
    have := Bool.not_eq_false _ |>.mp hne
    exact eq_of_beq this
  subst this
  simp [Char.isDigit] at h

theorem aux_notify_nonmutating (ls : List Listener) (cfg : SessionCfg)
    (h : ∀ l ∈ ls, NonMutating l) :
    notifyListeners ls cfg = (cfg, List.replicate ls.length cfg) := by
  induction ls with
  | nil => rfl
  | cons l ls ih =>
    have hl : NonMutating l := h l (by simp)
    have hls : ∀ x ∈ ls, NonMutating x := fun x hx => h x (by simp [hx])
    have hact : (match l cfg with
        | .pure => cfg
        | .throws => cfg
        | .mutate f => f cfg) = cfg := by
      cases hlc : l cfg with
      | pure => rfl
      | throws => rfl
      | mutate f => exact absurd hlc (hl cfg f)
    simp [notifyListeners, hact, ih hls, List.replicate_succ]

theorem aux_outcome_isOk {α : Type} (m : DockerErr → String) (s : DockerSource)
    (r : BackendReply α) : (outcomeOf m s r).result.isOk = r.isOk := by
  cases r <;> rfl

theorem aux_filter_outcomes {α : Type} (m : DockerErr → String)
    (fetch : DockerSource → BackendReply α) (sources : List DockerSource) :
    (sources.map (fun s => outcomeOf m s (fetch s))).filter (fun r => r.result.isOk)
      = (okSources sources fetch).map (fun s => outcomeOf m s (fetch s)) := by
  induction sources with
  | nil => rfl
  | cons s ss ih =>
    simp only [List.map_cons, List.filter_cons, okSources] at ih ⊢
    rw [aux_outcome_isOk]
    cases hf : (fetch s).isOk with
    | true => simp [hf, ih]
    | false => simp [hf, ih]

theorem aux_isEmpty_map {α β : Type} (f : α → β) (l : List α) :
    (l.map f).isEmpty = l.isEmpty := by
  cases l <;> rfl

theorem aux_list_merge {α : Type} (fetch : DockerSource → BackendReply (List α))
    (sources : List DockerSource) :
    ((sources.map (fun s => outcomeOf errText s (fetch s))).filter
        (fun r => r.result.isOk)).flatMap
      (fun r => (dataOf r).map (fun c => (⟨c, r.name, r.kind⟩ : Tagged α)))
      = taggedOkItems sources fetch := by
  induction sources with
  | nil => rfl
  | cons s ss ih =>
    cases hf : fetch s with
    | ok xs =>
      have hstep : taggedOkItems (s :: ss) fetch
          = xs.map (fun c => (⟨c, s.name, s.kind⟩ : Tagged α)) ++ taggedOkItems ss fetch := by
        simp [taggedOkItems, List.flatMap_cons, hf]
      rw [hstep, ← ih]
      simp [outcomeOf, hf, QueryResult.isOk, dataOf, List.filter_cons]
    | fail e =>
      have hstep : taggedOkItems (s :: ss) fetch = taggedOkItems ss fetch := by
        simp [taggedOkItems, List.flatMap_cons, hf]
      rw [hstep, ← ih]
      simp [outcomeOf, hf, QueryResult.isOk, List.filter_cons]

theorem aux_firstOk_map {α : Type} (m : DockerErr → String)
    (fetch : DockerSource → BackendReply α) (sources : List DockerSource)
    (s0 : DockerSource) (v : α)
    (hhead : (okSources sources fetch).head? = some s0)
    (hv : fetch s0 = .ok v) :
    firstOk (sources.map (fun s => outcomeOf m s (fetch s)))
      = some (outcomeOf m s0 (fetch s0), v) := by
  induction sources with
  | nil => simp [okSources] at hhead
  | cons s ss ih =>
    simp only [okSources, List.filter_cons] at hhead
    cases hf : (fetch s).isOk with
    | true =>
      have hs0 : s = s0 := by
        rw [if_pos (by rw [hf])] at hhead
        simpa using hhead
      subst hs0
      simp [List.map_cons, firstOk, outcomeOf, hv]
    | false =>
      rw [if_neg (by rw [hf]; simp)] at hhead
      have ihr := ih hhead
      cases hfs : fetch s with
      | ok w => rw [hfs] at hf; simp [BackendReply.isOk] at hf
      | fail e =>
        simp only [List.map_cons, firstOk, outcomeOf, hfs]
        exact ihr

theorem aux_firstOk_none {α : Type} (m : DockerErr → String)
    (fetch : DockerSource → BackendReply α) (sources : List DockerSource)
    (h : ∀ s ∈ sources, (fetch s).isOk = false) :
    firstOk (sources.map (fun s => outcomeOf m s (fetch s))) = none := by
  induction sources with
  | nil => rfl
  | cons s ss ih =>
    have hs : (fetch s).isOk = false := h s (by simp)
    cases hfs : fetch s with
    | ok w => rw [hfs] at hs; simp [BackendReply.isOk] at hs
    | fail e =>
      simp only [List.map_cons, firstOk, outcomeOf, hfs]
      exact ih (fun x hx => h x (by simp [hx]))

theorem aux_firstOk_isSome {α : Type} (m : DockerErr → String)
    (fetch : DockerSource → BackendReply α) (sources : List DockerSource)
    (h : ∃ s ∈ sources, (fetch s).isOk = true) :
    (firstOk (sources.map (fun s => outcomeOf m s (fetch s)))).isSome = true := by
  induction sources with
  | nil => simp at h
  | cons s ss ih =>
    cases hfs : fetch s with
    | ok w => simp [List.map_cons, firstOk, outcomeOf, hfs]
    | fail e =>
      simp only [List.map_cons, firstOk, outcomeOf, hfs]
      obtain ⟨x, hx, hxo⟩ := h
      rcases List.mem_cons.mp hx with h1 | h2
      · subst h1; rw [hfs] at hxo; simp [BackendReply.isOk] at hxo
      · exact ih ⟨x, h2, hxo⟩

theorem aux_isPrefixOf_refl (l : List Char) : l.isPrefixOf l = true :=
  List.isPrefixOf_iff_prefix.mpr (List.prefix_refl l)

theorem aux_containsSubAux_append (sub pre : List Char) (post : List Char) :
    containsSubAux sub (pre ++ sub ++ post) = true := by
  induction pre with
  | nil =>
    show containsSubAux sub (sub ++ post) = true
    cases hsp : sub ++ post with
    | nil =>
      have hsub : sub = [] := by
        cases sub with
        | nil => rfl
        | cons a as => simp at hsp
      simp [containsSubAux, hsub]
    | cons c cs =>
      simp only [containsSubAux]
      rw [← hsp]
      have hpre : sub.isPrefixOf (sub ++ post) = true :=
        List.isPrefixOf_iff_prefix.mpr ⟨post, rfl⟩
      rw [hpre]
      simp
  | cons c cs ih =>
    have hassoc : ((c :: cs) ++ sub) ++ post = c :: ((cs ++ sub) ++ post) := by simp
    rw [hassoc]
    simp only [containsSubAux]
    rw [ih]
    simp

theorem aux_remote_kind (h : String) (src : DockerSource)
    (hm : src ∈ initRemoteSources h) : src.kind = SrcKind.remoteSrc := by
  simp only [initRemoteSources] at hm
  split at hm
  · simp at hm
  · split at hm
    · simp at hm
      subst hm
      rfl
    · simp at hm

theorem aux_setDockerHost_state (st : MgrState) (h : Option String) (now : Nat)
    (hnm : ∀ l ∈ st.listeners, NonMutating l) :
    setDockerHost st h now =
      ({ st with config := stampDockerHost st.config h now },
       List.replicate st.listeners.length (stampDockerHost st.config h now)) := by
  simp [setDockerHost, stampDockerHost, aux_notify_nonmutating st.listeners _ hnm]

theorem aux_setAllowLocal_state (st : MgrState) (b : Bool) (now : Nat)
    (hnm : ∀ l ∈ st.listeners, NonMutating l) :
    setAllowLocal st b now =
      ({ st with config := stampAllowLocal st.config b now },
       List.replicate st.listeners.length (stampAllowLocal st.config b now)) := by
  simp [setAllowLocal, stampAllowLocal, aux_notify_nonmutating st.listeners _ hnm]

theorem aux_setMultiple_state (st : MgrState) (sm : Option String) (al : Option Bool)
    (ll : Option String) (now : Nat)
    (hnm : ∀ l ∈ st.listeners, NonMutating l) :
    setMultiple st sm al ll now =
      ({ st with config := stampMultiple st.config sm al ll now },
       List.replicate st.listeners.length (stampMultiple st.config sm al ll now)) := by
  simp [setMultiple, stampMultiple, aux_notify_nonmutating st.listeners _ hnm]

theorem aux_resetToEnv_state (st : MgrState) (env : ProcessEnv) (now : Nat)
    (hnm : ∀ l ∈ st.listeners, NonMutating l) :
    resetToEnv st env now =
      ({ st with config := cfgFromEnv env now },
       List.replicate st.listeners.length (cfgFromEnv env now)) := by
  simp [resetToEnv, aux_notify_nonmutating st.listeners _ hnm]

/- ===================================================================
   Claim theorems.
   =================================================================== -/

/-- C8: for every stats record, the CPU percentage equals
`100 * (cpuUsageDelta / systemUsageDelta)` with both deltas
current-minus-previous, and whenever `systemUsageDelta ≤ 0` it is
exactly `0` — total rational arithmetic, no NaN/Infinity/exception;
concretely, deltas (50, 0) give 0 and deltas (20, 200) give 10, also
through the full `formatStats` record. -/
theorem cpu_percent_spec :
    (∀ c s : ℚ, s ≤ 0 → computeCpuPercent c s = 0) ∧
    (∀ c s : ℚ, 0 < s → computeCpuPercent c s = 100 * (c / s)) ∧
    (∀ stats : RawStats,
      computeCpuPercent
        (stats.cpuTotalUsage - jsOrZero stats.precpuTotalUsage)
        (jsOrZero stats.systemCpuUsage - jsOrZero stats.precpuSystemUsage)
        = (if 0 < jsOrZero stats.systemCpuUsage - jsOrZero stats.precpuSystemUsage then
            100 * ((stats.cpuTotalUsage - jsOrZero stats.precpuTotalUsage)
              / (jsOrZero stats.systemCpuUsage - jsOrZero stats.precpuSystemUsage))
          else 0)) ∧
    computeCpuPercent 50 0 = 0 ∧
    computeCpuPercent 20 200 = 10 ∧
    (formatStats { cpuTotalUsage := 70, precpuTotalUsage := some 50
                 , systemCpuUsage := some 400, precpuSystemUsage := some 200
                 , memUsage := none, memLimit := none }).cpuPercent = 10 := by
  refine ⟨?_, ?_, ?_, ?_, ?_, ?_⟩
  · intro c s hs
    simp [computeCpuPercent, not_lt.mpr hs]
  · intro c s hs
    simp only [computeCpuPercent, if_pos hs]
    ring
  · intro stats
    by_cases hs : 0 < jsOrZero stats.systemCpuUsage - jsOrZero stats.precpuSystemUsage
    · simp only [computeCpuPercent, if_pos hs]
      ring
    · simp only [computeCpuPercent, if_neg hs]
  · simp [computeCpuPercent]
  · norm_num [computeCpuPercent]
  · norm_num [formatStats, computeCpuPercent, jsOrZero, round2, jsRound, round_eq]

/-- Witness for C8 at concrete inputs. -/
theorem cpu_percent_spec_witness :
    computeCpuPercent 7 (-3) = 0 ∧ computeCpuPercent 30 60 = 100 * ((30 : ℚ) / 60) :=
  ⟨cpu_percent_spec.1 7 (-3) (by norm_num), cpu_percent_spec.2.1 30 60 (by norm_num)⟩

/-- C3: a syntactically valid call-scoped address A wins over any
session default B; with no call-scoped address the session default
wins; with neither, the result is the environment value or `none`, and
a fully unconfigured resolution surfaces as a data-level "no target
configured" failure result, not an exception. -/
theorem resolution_precedence :
    (∀ A B envHost, matchesTcpPattern A = true → A ≠ B →
      getEffectiveDockerHost (some A) (some B) envHost = some A) ∧
    (∀ B envHost, B ≠ "" →
      getEffectiveDockerHost none (some B) envHost = some B) ∧
    (∀ envHost, getEffectiveDockerHost none none envHost = orNull envHost) ∧
    (∀ (α : Type) (op : OpBehavior (List α)),
      (singleListContainers none none none op).success = false ∧
      (singleListContainers none none none op).error =
        some "未配置 Docker 连接。请传入 docker_host 参数（如 tcp://192.168.1.100:2375）") := by
  refine ⟨?_, ?_, ?_, ?_⟩
  · intro A B envHost hA _
    have htake : A.toList.take 6 = "tcp://".toList := by
      by_contra hne
      rw [matchesTcpPattern, if_neg hne] at hA
      exact Bool.false_ne_true hA
    have hpre : jsStartsWithTcp A = true := by
      apply List.isPrefixOf_iff_prefix.mpr
      exact ⟨A.toList.drop 6, by rw [← htake]; exact List.take_append_drop 6 A.toList⟩
    have hAne : A ≠ "" := by
      intro he
      subst he
      exact absurd htake (by decide)
    have htr : truthy (some A) = true := by
      simp [truthy]
      exact hAne
    simp [getEffectiveDockerHost, htr, hpre]
  · intro B envHost hB
    simp [getEffectiveDockerHost, truthy, jsStartsWithTcp, hB]
  · intro envHost
    rfl
  · intro α op
    exact ⟨rfl, rfl⟩

/-- Witness for C3 at concrete addresses. -/
theorem resolution_precedence_witness :
    getEffectiveDockerHost (some "tcp://1.2.3.4:2375") (some "tcp://5.6.7.8:2375") none
      = some "tcp://1.2.3.4:2375" ∧
    getEffectiveDockerHost none (some "tcp://5.6.7.8:2375") none
      = some "tcp://5.6.7.8:2375" :=
  ⟨resolution_precedence.1 "tcp://1.2.3.4:2375" "tcp://5.6.7.8:2375" none
      (by decide) (by decide),
   resolution_precedence.2.1 "tcp://5.6.7.8:2375" none (by decide)⟩

/-- C9: in every reachable registry state, a local source is present
only if the liveness ping succeeded during its initialisation — the
registry then being exactly the ping-succeeded build — every local
entry is the connected one built over the explicit socket path with
host and port absent, and a failed ping leaves no local entry at all
(never an error-status one). -/
theorem local_source_invariant (cfg : ClientCfg) (isWin : Bool)
    (s : List DockerSource) (hr : RegistryReachable cfg isWin s) :
    ((∃ src ∈ s, src.kind = SrcKind.localSrc) →
        cfg.allowLocal = true ∧
        s = initLocalSource true isWin (initRemoteSources cfg.remoteHost)) ∧
    (∀ src ∈ s, src.kind = SrcKind.localSrc →
        src = localSourceEntry isWin ∧
        src.status = SrcStatus.connected ∧
        src.clientOptions.host = none ∧ src.clientOptions.port = none ∧
        src.clientOptions.socketPath = some (localSocketPath isWin)) ∧
    (∀ src ∈ initLocalSource false isWin (initRemoteSources cfg.remoteHost),
        src.kind ≠ SrcKind.localSrc) := by
  have hremote : ∀ src ∈ initRemoteSources cfg.remoteHost,
      src.kind = SrcKind.remoteSrc := fun src hm => aux_remote_kind _ src hm
  have hfalse : ∀ src ∈ initLocalSource false isWin (initRemoteSources cfg.remoteHost),
      src.kind ≠ SrcKind.localSrc := by
    intro src hm
    have hm2 : src ∈ initRemoteSources cfg.remoteHost := by
      simpa [initLocalSource] using hm
    rw [hremote src hm2]
    simp
  cases hr with
  | remoteOnly =>
    refine ⟨?_, ?_, hfalse⟩
    · rintro ⟨src, hm, hk⟩
      have := hremote src hm
      rw [hk] at this
      simp at this
    · intro src hm hk
      have := hremote src hm
      rw [hk] at this
      simp at this
  | withLocalProbe pingOk hal =>
    cases pingOk with
    | false =>
      refine ⟨?_, ?_, hfalse⟩
      · rintro ⟨src, hm, hk⟩
        exact absurd hk (hfalse src hm)
      · intro src hm hk
        exact absurd hk (hfalse src hm)
    | true =>
      refine ⟨fun _ => ⟨hal, rfl⟩, ?_, hfalse⟩
      intro src hm hk
      have hm2 : src ∈ initRemoteSources cfg.remoteHost ++ [localSourceEntry isWin] := by
        simpa [initLocalSource] using hm
      rcases List.mem_append.mp hm2 with h1 | h2
      · have := hremote src h1
        rw [hk] at this
        simp at this
      · have hsrc : src = localSourceEntry isWin := by simpa using h2
        subst hsrc
        exact ⟨rfl, rfl, rfl, rfl, rfl⟩

/-- Witness for C9: a reachable registry with a successful local
probe contains the connected local entry. -/
theorem local_source_invariant_witness :
    localSourceEntry false ∈ initLocalSource true false (initRemoteSources "") ∧
    (localSourceEntry false).status = SrcStatus.connected := by
  have h := local_source_invariant ⟨"", true⟩ false _
    (RegistryReachable.withLocalProbe true rfl)
  refine ⟨by decide, ?_⟩
  exact (h.2.1 (localSourceEntry false) (by decide) (by decide)).2.1

theorem aux_setConnTail (p : SetConnParams) (st : MgrState) (now : Nat)
    (hnm : ∀ l ∈ st.listeners, NonMutating l) :
    (setConnTail p st now).1
      = { success := true, error := none, suggestion := none, hint := none } ∧
    (setConnTail p st now).2.config.dockerHost = st.config.dockerHost ∧
    ((setConnTail p st now).2.config.configuredAt = st.config.configuredAt ∨
      (setConnTail p st now).2.config.configuredAt = some now) ∧
    ((setConnTail p st now).2.config.configuredBy = st.config.configuredBy ∨
      (setConnTail p st now).2.config.configuredBy = some "session") ∧
    (setConnTail p st now).2.listeners = st.listeners := by
  cases hal : p.allow_local with
  | none =>
    by_cases hsm : (p.security_mode.isSome || p.audit_log.isSome || p.log_level.isSome) = true
    · have h2 := aux_setMultiple_state st p.security_mode p.audit_log p.log_level now hnm
      simp [setConnTail, hal, hsm, h2, stampMultiple]
    · have hsm2 : (p.security_mode.isSome || p.audit_log.isSome || p.log_level.isSome) = false := by
        simpa using hsm
      simp [setConnTail, hal, hsm2]
  | some b =>
    have h1 := aux_setAllowLocal_state st b now hnm
    have hl1 : ((setAllowLocal st b now).1).listeners = st.listeners := by simp [h1]
    have hnm2 : ∀ l ∈ ((setAllowLocal st b now).1).listeners, NonMutating l := by
      rw [hl1]; exact hnm
    by_cases hsm : (p.security_mode.isSome || p.audit_log.isSome || p.log_level.isSome) = true
    · have h2 := aux_setMultiple_state ((setAllowLocal st b now).1)
        p.security_mode p.audit_log p.log_level now hnm2
      have hstep : setConnTail p st now
          = ({ success := true, error := none, suggestion := none, hint := none },
             (setMultiple ((setAllowLocal st b now).1) p.security_mode p.audit_log
               p.log_level now).1) := by
        simp [setConnTail, hal, hsm]
      rw [hstep, h2]
      simp [h1, stampMultiple, stampAllowLocal]
    · have hsm2 : (p.security_mode.isSome || p.audit_log.isSome || p.log_level.isSome) = false := by
        simpa using hsm
      have hstep : setConnTail p st now
          = ({ success := true, error := none, suggestion := none, hint := none },
             (setAllowLocal st b now).1) := by
        simp [setConnTail, hal, hsm2]
      rw [hstep, h1]
      simp [stampAllowLocal]

/-- C6 (amended): every session mutator installs exactly the requested
update with `configuredAt = now` and `configuredBy = session` stamped
atomically (`resetToEnv` stamps `env`), the mutation is never rolled
back, and every subscribed listener — a throwing one is caught and the
remaining ones are still served — synchronously receives the new
configuration value.  The object handed to listeners is the live store
configuration rather than a copy; see the counterexample. -/
theorem mutator_listener_amended (st : MgrState) (host : Option String) (allow : Bool)
    (sm : Option String) (al : Option Bool) (ll : Option String)
    (env : ProcessEnv) (now : Nat)
    (hnm : ∀ l ∈ st.listeners, NonMutating l) :
    setDockerHost st host now =
      ({ st with config := stampDockerHost st.config host now },
       List.replicate st.listeners.length (stampDockerHost st.config host now)) ∧
    setAllowLocal st allow now =
      ({ st with config := stampAllowLocal st.config allow now },
       List.replicate st.listeners.length (stampAllowLocal st.config allow now)) ∧
    setMultiple st sm al ll now =
      ({ st with config := stampMultiple st.config sm al ll now },
       List.replicate st.listeners.length (stampMultiple st.config sm al ll now)) ∧
    resetToEnv st env now =
      ({ st with config := cfgFromEnv env now },
       List.replicate st.listeners.length (cfgFromEnv env now)) :=
  ⟨aux_setDockerHost_state st host now hnm, aux_setAllowLocal_state st allow now hnm,
   aux_setMultiple_state st sm al ll now hnm, aux_resetToEnv_state st env now hnm⟩

/-- Witness for C6: with a throwing listener subscribed before a
well-behaved one, `setDockerHost` still delivers the new configuration
to both. -/
theorem mutator_listener_amended_witness :
    (setDockerHost { config := exCfg0, listeners := [exThrower, exPure] }
        (some "tcp://1.2.3.4:2375") 7).2
      = [stampDockerHost exCfg0 (some "tcp://1.2.3.4:2375") 7,
         stampDockerHost exCfg0 (some "tcp://1.2.3.4:2375") 7] := by
  have hnm : ∀ l ∈ [exThrower, exPure], NonMutating l := by
    intro l hl cfg f
    rcases List.mem_cons.mp hl with h1 | h2
    · subst h1
      simp [exThrower]
    · have hp : l = exPure := by simpa using h2
      subst hp
      simp [exPure]
  have h := mutator_listener_amended ⟨exCfg0, [exThrower, exPure]⟩
    (some "tcp://1.2.3.4:2375") true none none none exEnv 7 hnm
  rw [h.1]
  rfl

/-- C6 counterexample: `notifyListeners` passes the live configuration
object, so a listener that mutates its argument corrupts the store —
after `setDockerHost`, which touches only `dockerHost` and the stamps,
the store's `allowLocal` has flipped, though the stamped new snapshot
has it `false`; and `resetToEnv` is a mutator that stamps
`configuredBy = env`, not `session`. -/
theorem listener_snapshot_counterexample :
    ((setDockerHost { config := exCfg0, listeners := [exMutator] }
        (some "tcp://1.2.3.4:2375") 5).1.config.allowLocal = true ∧
      exCfg0.allowLocal = false ∧
      (stampDockerHost exCfg0 (some "tcp://1.2.3.4:2375") 5).allowLocal = false) ∧
    (resetToEnv exState exEnv 5).1.config.configuredBy = some "env" :=
  ⟨⟨rfl, rfl, rfl⟩, rfl⟩

/-- C7 (amended): reading the store has no side effect and two reads
without an intervening mutation return equal snapshots; resetting to
process defaults twice yields snapshots that agree on every field
except `configuredAt`, which records each call's own time — at equal
timestamps the snapshots are fully equal — and the second reset's
result does not depend on the state the first one produced. -/
theorem read_reset_idempotence_amended (st : MgrState) (env : ProcessEnv) (n1 n2 : Nat)
    (hnm : ∀ l ∈ st.listeners, NonMutating l) :
    ((getConfigCall st).2 = st ∧
      (getConfigCall (getConfigCall st).2).1 = (getConfigCall st).1) ∧
    ((getConfigCall (resetToEnv st env n1).1).1 = cfgFromEnv env n1 ∧
     (getConfigCall (resetToEnv (resetToEnv st env n1).1 env n2).1).1 = cfgFromEnv env n2 ∧
     { cfgFromEnv env n1 with configuredAt := none }
        = { cfgFromEnv env n2 with configuredAt := none } ∧
     (n1 = n2 →
        (getConfigCall (resetToEnv st env n1).1).1
          = (getConfigCall (resetToEnv (resetToEnv st env n1).1 env n2).1).1)) := by
  have h1 := aux_resetToEnv_state st env n1 hnm
  have hnm1 : ∀ l ∈ ({ st with config := cfgFromEnv env n1 } : MgrState).listeners,
      NonMutating l := hnm
  have h1l : (resetToEnv st env n1).1 = { st with config := cfgFromEnv env n1 } := by rw [h1]
  have h2 := aux_resetToEnv_state ({ st with config := cfgFromEnv env n1 }) env n2 hnm1
  refine ⟨⟨rfl, rfl⟩, ?_, ?_, ?_, ?_⟩
  · rw [h1]
    rfl
  · rw [h1l, h2]
    rfl
  · simp [cfgFromEnv]
  · intro he
    subst he
    rw [h1l, h2]

/-- C7 counterexample: two resets in a row at clock values 0 and 1
yield different snapshots — `configuredAt` is re-stamped by each call. -/
theorem reset_idempotence_counterexample :
    (getConfigCall (resetToEnv exState exEnv 0).1).1
        ≠ (getConfigCall (resetToEnv (resetToEnv exState exEnv 0).1 exEnv 1).1).1 ∧
    (getConfigCall (resetToEnv exState exEnv 0).1).1.configuredAt = some 0 ∧
    (getConfigCall (resetToEnv (resetToEnv exState exEnv 0).1 exEnv 1).1).1.configuredAt
        = some 1 := by
  refine ⟨?_, rfl, rfl⟩
  intro he
  exact absurd (congrArg SessionCfg.configuredAt he) (by decide)

/-- C10: a `docker_host` of `""` or the literal `"null"` bypasses the
address-format validation (neither matches the accepted pattern, yet
the call succeeds), sets the session target to null stamping
`configuredBy = session`, and reports success; and these are the only
inputs through which this operation can take the session target from
configured to null. -/
theorem implicit_clear (p : SetConnParams) (st : MgrState) (now : Nat) (dh : String)
    (hdh : p.docker_host = some dh)
    (hnm : ∀ l ∈ st.listeners, NonMutating l) :
    ((dh = "" ∨ dh = "null") →
      (handleSetConnection p st now).1.success = true ∧
      (handleSetConnection p st now).1.error = none ∧
      (handleSetConnection p st now).2.config.dockerHost = none ∧
      (handleSetConnection p st now).2.config.configuredBy = some "session" ∧
      (handleSetConnection p st now).2.config.configuredAt = some now ∧
      matchesTcpPattern dh = false) ∧
    ((handleSetConnection p st now).2.config.dockerHost = none →
      st.config.dockerHost = none ∨ dh = "" ∨ dh = "null") := by
  obtain ⟨pdh, pal, psm, pau, pll⟩ := p
  simp only at hdh
  subst hdh
  constructor
  · intro hclear
    have hcond : ((dh == "") || (dh == "null")) = true := by
      rcases hclear with rfl | rfl <;> decide
    have h1 := aux_setDockerHost_state st none now hnm
    have hnm1 : ∀ l ∈ ({ st with config := stampDockerHost st.config none now } : MgrState).listeners,
        NonMutating l := hnm
    have htail := aux_setConnTail ⟨some dh, pal, psm, pau, pll⟩
      ({ st with config := stampDockerHost st.config none now }) now hnm1
    have hred : handleSetConnection ⟨some dh, pal, psm, pau, pll⟩ st now
        = setConnTail ⟨some dh, pal, psm, pau, pll⟩
            ({ st with config := stampDockerHost st.config none now }) now := by
      simp only [handleSetConnection, hcond, if_true]
      rw [h1]
    rw [hred]
    refine ⟨by rw [htail.1], by rw [htail.1], ?_, ?_, ?_, ?_⟩
    · rw [htail.2.1]
      rfl
    · rcases htail.2.2.2.1 with hby | hby
      · rw [hby]
        rfl
      · rw [hby]
    · rcases htail.2.2.1 with hat | hat
      · rw [hat]
        rfl
      · rw [hat]
    · rcases hclear with rfl | rfl <;> decide
  · intro hnone
    by_cases hc1 : ((dh == "") || (dh == "null")) = true
    · right
      simp only [Bool.or_eq_true, beq_iff_eq] at hc1
      exact hc1
    · have hc1f : ((dh == "") || (dh == "null")) = false := by simpa using hc1
      by_cases hc2 : matchesTcpPattern dh = true
      · exfalso
        have h1 := aux_setDockerHost_state st (some dh) now hnm
        have hnm1 : ∀ l ∈ ({ st with config := stampDockerHost st.config (some dh) now } : MgrState).listeners,
            NonMutating l := hnm
        have htail := aux_setConnTail ⟨some dh, pal, psm, pau, pll⟩
          ({ st with config := stampDockerHost st.config (some dh) now }) now hnm1
        have hred : handleSetConnection ⟨some dh, pal, psm, pau, pll⟩ st now
            = setConnTail ⟨some dh, pal, psm, pau, pll⟩
                ({ st with config := stampDockerHost st.config (some dh) now }) now := by
          simp only [handleSetConnection, hc1f, Bool.false_eq_true, if_false, hc2, if_true]
          rw [h1]
        rw [hred, htail.2.1] at hnone
        simp [stampDockerHost] at hnone
      · have hc2f : matchesTcpPattern dh = false := by simpa using hc2
        have hred : (handleSetConnection ⟨some dh, pal, psm, pau, pll⟩ st now).2 = st := by
          by_cases hio : matchesIpOnly dh = true
          · simp [handleSetConnection, hc1f, hc2f, hio]
          · by_cases hip : matchesIpWithPort dh = true
            · simp [handleSetConnection, hc1f, hc2f, hio, hip]
            · simp [handleSetConnection, hc1f, hc2f, hio, hip]
        rw [hred] at hnone
        exact Or.inl hnone

/-- Witness for C10: clearing a configured target with `"null"`. -/
theorem implicit_clear_witness :
    (handleSetConnection ⟨some "null", none, none, none, none⟩
        ⟨{ exCfg0 with dockerHost := some "tcp://9.9.9.9:2375" }, []⟩ 4).1.success = true ∧
    (handleSetConnection ⟨some "null", none, none, none, none⟩
        ⟨{ exCfg0 with dockerHost := some "tcp://9.9.9.9:2375" }, []⟩ 4).2.config.dockerHost
      = none := by
  have h := implicit_clear ⟨some "null", none, none, none, none⟩
    ⟨{ exCfg0 with dockerHost := some "tcp://9.9.9.9:2375" }, []⟩ 4 "null" rfl
    (by intro l hl; simp at hl)
  have h2 := h.1 (Or.inr rfl)
  exact ⟨h2.1, h2.2.2.1⟩

/-- C2: for the inspect-by-id queries (container inspect, logs, stats,
image inspect) with at least one ok outcome, the combined payload is
the first ok outcome in Source Registry order — tagged with its
source's label and kind where the operation tags — and for the list
queries the combined payload concatenates all ok outcomes' arrays in
registry order, tagging each item with the label of the source it came
from. -/
theorem merge_semantics {α β : Type} (sources : List DockerSource)
    (fetchL : DockerSource → BackendReply (List α))
    (fetchI : DockerSource → BackendReply β)
    (cid iid : String) (s0 : DockerSource) (v : β) :
    ((okSources sources fetchI).head? = some s0 → fetchI s0 = .ok v →
      (getContainerAgg sources cid fetchI).combined = some ⟨v, s0.name, s0.kind⟩ ∧
      (getLogsAgg sources cid fetchI).combined = some v ∧
      (getStatsAgg sources cid fetchI).combined = some v ∧
      (getImageAgg sources iid fetchI).combined = some ⟨v, s0.name, s0.kind⟩) ∧
    ((∃ s ∈ sources, (fetchL s).isOk = true) →
      (listContainersAgg sources fetchL).combined = some (taggedOkItems sources fetchL) ∧
      (listImagesAgg sources fetchL).combined = some (taggedOkItems sources fetchL)) := by
  constructor
  · intro hhead hv
    have hne : sources ≠ [] := by
      intro h0
      subst h0
      simp [okSources] at hhead
    have hempty : sources.isEmpty = false := by
      cases sources with
      | nil => exact absurd rfl hne
      | cons a as => rfl
    refine ⟨?_, ?_, ?_, ?_⟩
    · have hfo := aux_firstOk_map (inspectErrText "容器" cid) fetchI sources s0 v hhead hv
      simp only [getContainerAgg, hempty, Bool.false_eq_true, if_false, hfo]
      simp [outcomeOf]
    · have hfo := aux_firstOk_map (inspectErrText "容器" cid) fetchI sources s0 v hhead hv
      simp only [getLogsAgg, hempty, Bool.false_eq_true, if_false, hfo]
    · have hfo := aux_firstOk_map (inspectErrText "容器" cid) fetchI sources s0 v hhead hv
      simp only [getStatsAgg, hempty, Bool.false_eq_true, if_false, hfo]
    · have hfo := aux_firstOk_map (inspectErrText "镜像" iid) fetchI sources s0 v hhead hv
      simp only [getImageAgg, hempty, Bool.false_eq_true, if_false, hfo]
      simp [outcomeOf]
  · intro hex
    obtain ⟨s, hs, hok⟩ := hex
    have hne : sources ≠ [] := by
      intro h0
      subst h0
      simp at hs
    have hempty : sources.isEmpty = false := by
      cases sources with
      | nil => exact absurd rfl hne
      | cons a as => rfl
    have hmem : s ∈ okSources sources fetchL := List.mem_filter.mpr ⟨hs, hok⟩
    have hnef : (okSources sources fetchL).isEmpty = false := by
      cases hss : okSources sources fetchL with
      | nil => rw [hss] at hmem; simp at hmem
      | cons a as => rfl
    have hfe : ((sources.map (fun s => outcomeOf errText s (fetchL s))).filter
        (fun r => r.result.isOk)).isEmpty = false := by
      rw [aux_filter_outcomes, aux_isEmpty_map]
      exact hnef
    constructor
    · simp only [listContainersAgg, hempty, Bool.false_eq_true, if_false, hfe]
      rw [aux_list_merge]
    · simp only [listImagesAgg, hempty, Bool.false_eq_true, if_false, hfe]
      rw [aux_list_merge]

/-- Witness for C2: a two-source registry where only the remote source
replies. -/
theorem merge_semantics_witness :
    (getContainerAgg [exSrcA, exSrcB] "abc" exFetchMixed).combined
      = some ⟨7, "阿里云 ECS", SrcKind.remoteSrc⟩ ∧
    (listContainersAgg [exSrcA, exSrcB] exFetchListMixed).combined
      = some (taggedOkItems [exSrcA, exSrcB] exFetchListMixed) := by
  have h := merge_semantics [exSrcA, exSrcB] exFetchListMixed exFetchMixed
    "abc" "img" exSrcA 7
  exact ⟨((h.1 (by decide) (by decide)).1), (h.2 ⟨exSrcA, by decide, by decide⟩).1⟩

theorem aux_inspect_notFound (entity id : String) (e : DockerErr)
    (h404 : e.statusCode = some 404) :
    containsSub (inspectErrText entity id e) "不存在" = true := by
  have htext : inspectErrText entity id e = entity ++ " " ++ id ++ " 不存在" := by
    simp [inspectErrText, h404]
  have hsp : (" 不存在" : String).data = [' '] ++ "不存在".data := by decide
  have key := aux_containsSubAux_append "不存在".data
      ((entity.data ++ " ".data ++ id.data) ++ [' ']) []
  rw [htext]
  show containsSubAux "不存在".toList (entity ++ " " ++ id ++ " 不存在").toList = true
  simp only [String.toList, String.data_append, hsp]
  simp only [List.append_assoc, List.append_nil] at key ⊢
  exact key

/-- C1 (amended): with zero sources configured every aggregated query
returns `no_docker_found` with no combined payload and a populated
setup guide.  For both list queries (`listContainers`, `listImages`):
all sources succeeding gives `success`; some but not all gives
`partial` with the combined payload holding exactly the successful
sources' tagged items; zero successes gives a connectivity-flavoured
`no_docker_found` with the setup guide.  Every inspect-style query
(`getContainer`, `getContainerLogs`, `getContainerStats`, `getImage`)
reports `success` as soon as any one source succeeds — never
`partial`.  On zero successes, only `getContainer` distinguishes the
error classes: all-404 failures produce the distinguished "不存在 in
every source" message without the setup guide while connectivity-class
failures produce the connection-failure message with the guide; logs
and stats use one fixed message with the guide regardless of the error
class, and `getImage` labels every total failure with the "不存在 in
every source" message, without a setup guide, regardless of the error
class. -/
theorem aggregate_status_amended {α β : Type} (sources : List DockerSource)
    (fetchL : DockerSource → BackendReply (List α))
    (fetchI : DockerSource → BackendReply β) (cid iid : String) :
    (listContainersAgg ([] : List DockerSource) fetchL = noSourcesResult _ _ ∧
     getContainerAgg ([] : List DockerSource) cid fetchI = noSourcesResult _ _ ∧
     getImageAgg ([] : List DockerSource) iid fetchI = noSourcesResult _ _ ∧
     (noSourcesResult (List α) (List (Tagged α))).status = AggStatus.noDockerFound ∧
     (noSourcesResult (List α) (List (Tagged α))).combined = none ∧
     (noSourcesResult (List α) (List (Tagged α))).setup_guide = some setupGuideText) ∧
    (sources ≠ [] → (∀ s ∈ sources, (fetchL s).isOk = true) →
      (listContainersAgg sources fetchL).status = AggStatus.success) ∧
    ((∃ s ∈ sources, (fetchL s).isOk = true) → (∃ s ∈ sources, (fetchL s).isOk = false) →
      (listContainersAgg sources fetchL).status = AggStatus.partialResult ∧
      (listContainersAgg sources fetchL).combined = some (taggedOkItems sources fetchL)) ∧
    (sources ≠ [] → (∀ s ∈ sources, (fetchL s).isOk = false) →
      (listContainersAgg sources fetchL).status = AggStatus.noDockerFound ∧
      (listContainersAgg sources fetchL).message = "❌ 所有 Docker 源均连接失败" ∧
      (listContainersAgg sources fetchL).setup_guide = some setupGuideText) ∧
    (sources ≠ [] →
      (∀ s ∈ sources, ∃ e, fetchI s = .fail e ∧ e.statusCode = some 404) →
      (getContainerAgg sources cid fetchI).status = AggStatus.noDockerFound ∧
      (getContainerAgg sources cid fetchI).message
        = "❌ 容器 " ++ cid ++ " 在所有源中都不存在" ∧
      (getContainerAgg sources cid fetchI).setup_guide = none) ∧
    (sources ≠ [] →
      (∀ s ∈ sources, ∃ e, fetchI s = .fail e ∧ e.statusCode ≠ some 404 ∧
          containsSub (errText e) "不存在" = false) →
      (getContainerAgg sources cid fetchI).status = AggStatus.noDockerFound ∧
      (getContainerAgg sources cid fetchI).message = "❌ 所有 Docker 源均连接失败" ∧
      (getContainerAgg sources cid fetchI).setup_guide = some setupGuideText) ∧
    ((∃ s ∈ sources, (fetchI s).isOk = true) →
      (getImageAgg sources iid fetchI).status = AggStatus.success) ∧
    (sources ≠ [] → (∀ s ∈ sources, (fetchI s).isOk = false) →
      (getImageAgg sources iid fetchI).status = AggStatus.noDockerFound ∧
      (getImageAgg sources iid fetchI).message
        = "❌ 镜像 " ++ iid ++ " 在所有源中都不存在" ∧
      (getImageAgg sources iid fetchI).setup_guide = none) ∧
    (listImagesAgg ([] : List DockerSource) fetchL = noSourcesResult _ _ ∧
     getLogsAgg ([] : List DockerSource) cid fetchI = noSourcesResult _ _ ∧
     getStatsAgg ([] : List DockerSource) cid fetchI = noSourcesResult _ _) ∧
    (sources ≠ [] → (∀ s ∈ sources, (fetchL s).isOk = true) →
      (listImagesAgg sources fetchL).status = AggStatus.success) ∧
    ((∃ s ∈ sources, (fetchL s).isOk = true) → (∃ s ∈ sources, (fetchL s).isOk = false) →
      (listImagesAgg sources fetchL).status = AggStatus.partialResult ∧
      (listImagesAgg sources fetchL).combined = some (taggedOkItems sources fetchL)) ∧
    (sources ≠ [] → (∀ s ∈ sources, (fetchL s).isOk = false) →
      (listImagesAgg sources fetchL).status = AggStatus.noDockerFound ∧
      (listImagesAgg sources fetchL).message = "❌ 所有 Docker 源均连接失败" ∧
      (listImagesAgg sources fetchL).setup_guide = some setupGuideText) ∧
    ((∃ s ∈ sources, (fetchI s).isOk = true) →
      (getContainerAgg sources cid fetchI).status = AggStatus.success ∧
      (getLogsAgg sources cid fetchI).status = AggStatus.success ∧
      (getStatsAgg sources cid fetchI).status = AggStatus.success) ∧
    (sources ≠ [] → (∀ s ∈ sources, (fetchI s).isOk = false) →
      (getLogsAgg sources cid fetchI).status = AggStatus.noDockerFound ∧
      (getLogsAgg sources cid fetchI).message = "❌ 无法获取容器日志" ∧
      (getLogsAgg sources cid fetchI).setup_guide = some setupGuideText ∧
      (getStatsAgg sources cid fetchI).status = AggStatus.noDockerFound ∧
      (getStatsAgg sources cid fetchI).message = "❌ 无法获取容器统计" ∧
      (getStatsAgg sources cid fetchI).setup_guide = some setupGuideText) := by
  have hfilter := aux_filter_outcomes errText fetchL sources
  refine ⟨⟨rfl, rfl, rfl, rfl, rfl, rfl⟩, ?_, ?_, ?_, ?_, ?_, ?_, ?_,
    ⟨rfl, rfl, rfl⟩, ?_, ?_, ?_, ?_, ?_⟩
  · -- list query, all succeed
    intro hne hall
    have hempty : sources.isEmpty = false := by
      cases sources with
      | nil => exact absurd rfl hne
      | cons a as => rfl
    have hok : okSources sources fetchL = sources :=
      List.filter_eq_self.mpr (fun a ha => hall a ha)
    have hfe : ((sources.map (fun s => outcomeOf errText s (fetchL s))).filter
        (fun r => r.result.isOk)).isEmpty = false := by
      rw [hfilter, hok, aux_isEmpty_map]
      exact hempty
    have hcond : (((sources.map (fun s => outcomeOf errText s (fetchL s))).filter
          (fun r => r.result.isOk)).length
        == (sources.map (fun s => outcomeOf errText s (fetchL s))).length) = true := by
      rw [hfilter, hok]
      simp
    simp only [listContainersAgg, hempty, Bool.false_eq_true, if_false, hfe, hcond]
    simp
  · -- list query, partial
    intro hex hex2
    obtain ⟨s1, hs1, hok1⟩ := hex
    obtain ⟨s2, hs2, hok2⟩ := hex2
    have hne : sources ≠ [] := by
      intro h0; subst h0; simp at hs1
    have hempty : sources.isEmpty = false := by
      cases sources with
      | nil => exact absurd rfl hne
      | cons a as => rfl
    have hmem : s1 ∈ okSources sources fetchL := List.mem_filter.mpr ⟨hs1, hok1⟩
    have hnef : (okSources sources fetchL).isEmpty = false := by
      cases hss : okSources sources fetchL with
      | nil => rw [hss] at hmem; simp at hmem
      | cons a as => rfl
    have hfe : ((sources.map (fun s => outcomeOf errText s (fetchL s))).filter
        (fun r => r.result.isOk)).isEmpty = false := by
      rw [hfilter, aux_isEmpty_map]
      exact hnef
    have hlt : (okSources sources fetchL).length < sources.length :=
      List.length_filter_lt_length_iff_exists.mpr ⟨s2, hs2, by simp [hok2]⟩
    have hcond : (((sources.map (fun s => outcomeOf errText s (fetchL s))).filter
          (fun r => r.result.isOk)).length
        == (sources.map (fun s => outcomeOf errText s (fetchL s))).length) = false := by
      rw [hfilter, List.length_map, List.length_map]
      exact beq_eq_false_iff_ne.mpr (Nat.ne_of_lt hlt)
    constructor
    · simp only [listContainersAgg, hempty, Bool.false_eq_true, if_false, hfe, hcond]
    · simp only [listContainersAgg, hempty, Bool.false_eq_true, if_false, hfe]
      rw [aux_list_merge]
  · -- list query, zero succeed
    intro hne hall0
    have hempty : sources.isEmpty = false := by
      cases sources with
      | nil => exact absurd rfl hne
      | cons a as => rfl
    have hnil : okSources sources fetchL = [] :=
      List.filter_eq_nil_iff.mpr (fun a ha => by simp [hall0 a ha])
    have hfe : ((sources.map (fun s => outcomeOf errText s (fetchL s))).filter
        (fun r => r.result.isOk)).isEmpty = true := by
      rw [hfilter, hnil]
      rfl
    simp [listContainersAgg, hempty, hfe]
  · -- getContainer: every source 404s
    intro hne h404
    have hempty : sources.isEmpty = false := by
      cases sources with
      | nil => exact absurd rfl hne
      | cons a as => rfl
    have h0 : ∀ s ∈ sources, (fetchI s).isOk = false := by
      intro s hs
      obtain ⟨e, hfe2, _⟩ := h404 s hs
      rw [hfe2]
      rfl
    have hfo := aux_firstOk_none (inspectErrText "容器" cid) fetchI sources h0
    have hall : ((sources.map (fun s => outcomeOf (inspectErrText "容器" cid) s (fetchI s))).all
        outcomeNotFound) = true := by
      apply List.all_eq_true.mpr
      intro r hr
      obtain ⟨s, hs, hrs⟩ := List.mem_map.mp hr
      subst hrs
      obtain ⟨e, hfe2, he404⟩ := h404 s hs
      rw [hfe2]
      show containsSub (inspectErrText "容器" cid e) "不存在" = true
      exact aux_inspect_notFound "容器" cid e he404
    simp [getContainerAgg, hempty, hfo, hall]
  · -- getContainer: every source fails with a connectivity-class error
    intro hne hconn
    have hempty : sources.isEmpty = false := by
      cases sources with
      | nil => exact absurd rfl hne
      | cons a as => rfl
    have h0 : ∀ s ∈ sources, (fetchI s).isOk = false := by
      intro s hs
      obtain ⟨e, hfe2, _, _⟩ := hconn s hs
      rw [hfe2]
      rfl
    have hfo := aux_firstOk_none (inspectErrText "容器" cid) fetchI sources h0
    have hallF : ((sources.map (fun s => outcomeOf (inspectErrText "容器" cid) s (fetchI s))).all
        outcomeNotFound) = false := by
      cases sources with
      | nil => exact absurd rfl hne
      | cons s1 rest =>
        obtain ⟨e, hfe2, hne404, hnc⟩ := hconn s1 (by simp)
        have hbeq : (e.statusCode == some 404) = false := by
          simpa using hne404
        have hhead : outcomeNotFound
            (outcomeOf (inspectErrText "容器" cid) s1 (fetchI s1)) = false := by
          rw [hfe2]
          show containsSub (inspectErrText "容器" cid e) "不存在" = false
          rw [inspectErrText, if_neg (by simp [hbeq])]
          exact hnc
        simp [List.all_cons, hhead]
    simp [getContainerAgg, hempty, hfo, hallF]
  · -- getImage: any success is reported as full success
    intro hex
    obtain ⟨s1, hs1, hok1⟩ := hex
    have hne : sources ≠ [] := by
      intro h0; subst h0; simp at hs1
    have hempty : sources.isEmpty = false := by
      cases sources with
      | nil => exact absurd rfl hne
      | cons a as => rfl
    have hsome := aux_firstOk_isSome (inspectErrText "镜像" iid) fetchI sources ⟨s1, hs1, hok1⟩
    obtain ⟨rv, hrv⟩ := Option.isSome_iff_exists.mp hsome
    simp [getImageAgg, hempty, hrv]
  · -- getImage: zero successes, any error class
    intro hne hall0
    have hempty : sources.isEmpty = false := by
      cases sources with
      | nil => exact absurd rfl hne
      | cons a as => rfl
    have hfo := aux_firstOk_none (inspectErrText "镜像" iid) fetchI sources hall0
    simp [getImageAgg, hempty, hfo]
  · -- listImages, all succeed
    intro hne hall
    have hempty : sources.isEmpty = false := by
      cases sources with
      | nil => exact absurd rfl hne
      | cons a as => rfl
    have hok : okSources sources fetchL = sources :=
      List.filter_eq_self.mpr (fun a ha => hall a ha)
    have hfe : ((sources.map (fun s => outcomeOf errText s (fetchL s))).filter
        (fun r => r.result.isOk)).isEmpty = false := by
      rw [hfilter, hok, aux_isEmpty_map]
      exact hempty
    have hcond : (((sources.map (fun s => outcomeOf errText s (fetchL s))).filter
          (fun r => r.result.isOk)).length
        == (sources.map (fun s => outcomeOf errText s (fetchL s))).length) = true := by
      rw [hfilter, hok]
      simp
    simp only [listImagesAgg, hempty, Bool.false_eq_true, if_false, hfe, hcond]
    simp
  · -- listImages, partial
    intro hex hex2
    obtain ⟨s1, hs1, hok1⟩ := hex
    obtain ⟨s2, hs2, hok2⟩ := hex2
    have hne : sources ≠ [] := by
      intro h0; subst h0; simp at hs1
    have hempty : sources.isEmpty = false := by
      cases sources with
      | nil => exact absurd rfl hne
      | cons a as => rfl
    have hmem : s1 ∈ okSources sources fetchL := List.mem_filter.mpr ⟨hs1, hok1⟩
    have hnef : (okSources sources fetchL).isEmpty = false := by
      cases hss : okSources sources fetchL with
      | nil => rw [hss] at hmem; simp at hmem
      | cons a as => rfl
    have hfe : ((sources.map (fun s => outcomeOf errText s (fetchL s))).filter
        (fun r => r.result.isOk)).isEmpty = false := by
      rw [hfilter, aux_isEmpty_map]
      exact hnef
    have hlt : (okSources sources fetchL).length < sources.length :=
      List.length_filter_lt_length_iff_exists.mpr ⟨s2, hs2, by simp [hok2]⟩
    have hcond : (((sources.map (fun s => outcomeOf errText s (fetchL s))).filter
          (fun r => r.result.isOk)).length
        == (sources.map (fun s => outcomeOf errText s (fetchL s))).length) = false := by
      rw [hfilter, List.length_map, List.length_map]
      exact beq_eq_false_iff_ne.mpr (Nat.ne_of_lt hlt)
    constructor
    · simp only [listImagesAgg, hempty, Bool.false_eq_true, if_false, hfe, hcond]
    · simp only [listImagesAgg, hempty, Bool.false_eq_true, if_false, hfe]
      rw [aux_list_merge]
  · -- listImages, zero succeed
    intro hne hall0
    have hempty : sources.isEmpty = false := by
      cases sources with
      | nil => exact absurd rfl hne
      | cons a as => rfl
    have hnil : okSources sources fetchL = [] :=
      List.filter_eq_nil_iff.mpr (fun a ha => by simp [hall0 a ha])
    have hfe : ((sources.map (fun s => outcomeOf errText s (fetchL s))).filter
        (fun r => r.result.isOk)).isEmpty = true := by
      rw [hfilter, hnil]
      rfl
    simp [listImagesAgg, hempty, hfe]
  · -- getContainer, logs, stats: any success is reported as full success
    intro hex
    obtain ⟨s1, hs1, hok1⟩ := hex
    have hne : sources ≠ [] := by
      intro h0; subst h0; simp at hs1
    have hempty : sources.isEmpty = false := by
      cases sources with
      | nil => exact absurd rfl hne
      | cons a as => rfl
    have hsome := aux_firstOk_isSome (inspectErrText "容器" cid) fetchI sources ⟨s1, hs1, hok1⟩
    obtain ⟨rv, hrv⟩ := Option.isSome_iff_exists.mp hsome
    refine ⟨?_, ?_, ?_⟩
    · simp [getContainerAgg, hempty, hrv]
    · simp [getLogsAgg, hempty, hrv]
    · simp [getStatsAgg, hempty, hrv]
  · -- logs and stats: zero successes use one fixed message with the guide
    intro hne hall0
    have hempty : sources.isEmpty = false := by
      cases sources with
      | nil => exact absurd rfl hne
      | cons a as => rfl
    have hfo := aux_firstOk_none (inspectErrText "容器" cid) fetchI sources hall0
    simp [getLogsAgg, getStatsAgg, hempty, hfo]

/-- C1 counterexample: with one ok source and one connectivity-failed
source, `getImage` reports `success` rather than `partial`; and with
both sources failing on connectivity, it reports the "不存在 in every
source" message with no setup guide even though no error is a
not-found. -/
theorem aggregate_status_counterexample :
    (getImageAgg [exSrcA, exSrcB] "abc" exFetchMixed).status = AggStatus.success ∧
    ((getImageAgg [exSrcA, exSrcB] "abc" exFetchMixed).sources.filter
        (fun o => o.result.isOk)).length = 1 ∧
    ((getImageAgg [exSrcA, exSrcB] "abc" exFetchMixed).sources.filter
        (fun o => !o.result.isOk)).length = 1 ∧
    (getImageAgg [exSrcA, exSrcB] "abc" exFetchConnFail).message
      = "❌ 镜像 abc 在所有源中都不存在" ∧
    (getImageAgg [exSrcA, exSrcB] "abc" exFetchConnFail).setup_guide = none ∧
    (∀ o ∈ (getImageAgg [exSrcA, exSrcB] "abc" exFetchConnFail).sources,
        outcomeNotFound o = false) := by
  decide

/-- Witness for C1's amended classification at concrete registries. -/
theorem aggregate_status_amended_witness :
    (listContainersAgg [exSrcA, exSrcB] exFetchListMixed).status
      = AggStatus.partialResult ∧
    (listImagesAgg [exSrcA, exSrcB] exFetchListMixed).status
      = AggStatus.partialResult ∧
    (getContainerAgg [exSrcA, exSrcB] "abc" exFetchNotFound).setup_guide = none ∧
    (getLogsAgg [exSrcA, exSrcB] "abc" exFetchNotFound).message = "❌ 无法获取容器日志" := by
  have h := aggregate_status_amended (β := Nat) [exSrcA, exSrcB]
    exFetchListMixed exFetchNotFound "abc" "img"
  obtain ⟨-, -, h3, -, h5, -, -, -, -, -, h11, -, -, h14⟩ := h
  refine ⟨(h3 ⟨exSrcA, by decide, by decide⟩ ⟨exSrcB, by decide, by decide⟩).1,
    (h11 ⟨exSrcA, by decide, by decide⟩ ⟨exSrcB, by decide, by decide⟩).1,
    (h5 (by decide) (fun s _ => ⟨⟨some 404, none, "no such container"⟩, rfl, rfl⟩)).2.2,
    (h14 (by decide) (fun s _ => rfl)).2.1⟩

theorem aux_tcpShape_iff (s : String) : matchesTcpPattern s = true ↔ TcpShape s := by
  constructor
  · intro hm
    have htake : s.toList.take 6 = "tcp://".toList := by
      by_contra hne
      rw [matchesTcpPattern, if_neg hne] at hm
      exact Bool.false_ne_true hm
    rw [matchesTcpPattern, if_pos htake] at hm
    cases hsp : splitOnChar ':' (s.toList.drop 6) with
    | nil => rw [hsp] at hm; simp at hm
    | cons g1 gs =>
      cases gs with
      | nil => rw [hsp] at hm; simp at hm
      | cons g2 gs2 =>
        cases gs2 with
        | cons g3 gs3 => rw [hsp] at hm; simp at hm
        | nil =>
          rw [hsp] at hm
          simp only [Bool.and_eq_true] at hm
          obtain ⟨⟨⟨hg1e, hg1w⟩, hg2e⟩, hg2d⟩ := hm
          obtain ⟨hdecomp, _, _⟩ := aux_splitOnChar_eq_pair ':' _ g1 g2 hsp
          refine ⟨g1, g2, ?_, ?_, ?_, ?_, ?_⟩
          · conv_lhs => rw [← List.take_append_drop 6 s.toList]
            rw [htake, hdecomp]
          · intro h0
            subst h0
            simp at hg1e
          · exact fun c hc => List.all_eq_true.mp hg1w c hc
          · intro h0
            subst h0
            simp at hg2e
          · exact fun c hc => List.all_eq_true.mp hg2d c hc
  · rintro ⟨h, p, hdecomp, hne, hw, pne, pd⟩
    have hlen : ("tcp://".toList).length = 6 := by decide
    have htake : s.toList.take 6 = "tcp://".toList := by
      rw [hdecomp, ← hlen, List.take_left]
    have hdrop : s.toList.drop 6 = h ++ ':' :: p := by
      rw [hdecomp, ← hlen, List.drop_left]
    have hnosep : ∀ c ∈ h, (c == ':') = false :=
      fun c hc => aux_isWordChar_ne_colon c (hw c hc)
    have hnosep2 : ∀ c ∈ p, (c == ':') = false :=
      fun c hc => aux_isDigit_ne_colon c (pd c hc)
    have hsplit : splitOnChar ':' (s.toList.drop 6) = [h, p] := by
      rw [hdrop, aux_splitOnChar_append ':' h p hnosep,
        aux_splitOnChar_single ':' p hnosep2]
    rw [matchesTcpPattern, if_pos htake, hsplit]
    have h1 : h.isEmpty = false := by
      cases h with
      | nil => exact absurd rfl hne
      | cons a as => rfl
    have p1 : p.isEmpty = false := by
      cases p with
      | nil => exact absurd rfl pne
      | cons a as => rfl
    simp [h1, p1, List.all_eq_true.mpr hw, List.all_eq_true.mpr pd]

/-- C4 (amended): the validator accepts exactly the strings of shape
`tcp://H:P` with `H` a nonempty run of ASCII word/dot/hyphen characters
and `P` a nonempty digit run — the port's numeric range is never
checked; an IP-only input is rejected with a distinguished error
carrying the corrected suggestion `tcp://<ip>:2375`; an IP:port input
without the scheme is rejected with a distinguished error carrying
`tcp://<input>`; every other malformed input is rejected with the
format error; and every rejection leaves the session store untouched —
a partial address is never auto-completed and applied. -/
theorem address_validation_amended :
    (∀ s, matchesTcpPattern s = true ↔ TcpShape s) ∧
    (∀ (s : String) (st : MgrState) (now : Nat), (∀ l ∈ st.listeners, NonMutating l) →
      s ≠ "" → s ≠ "null" → matchesTcpPattern s = true →
      (handleSetConnection ⟨some s, none, none, none, none⟩ st now).1.success = true ∧
      (handleSetConnection ⟨some s, none, none, none, none⟩ st now).2.config.dockerHost
        = some s) ∧
    (∀ (s : String) (st : MgrState) (now : Nat),
      s ≠ "" → s ≠ "null" → matchesTcpPattern s = false → matchesIpOnly s = true →
      (handleSetConnection ⟨some s, none, none, none, none⟩ st now).1.success = false ∧
      (handleSetConnection ⟨some s, none, none, none, none⟩ st now).1.suggestion
        = some ("tcp://" ++ s ++ ":2375") ∧
      (handleSetConnection ⟨some s, none, none, none, none⟩ st now).2 = st) ∧
    (∀ (s : String) (st : MgrState) (now : Nat),
      s ≠ "" → s ≠ "null" → matchesTcpPattern s = false → matchesIpOnly s = false →
      matchesIpWithPort s = true →
      (handleSetConnection ⟨some s, none, none, none, none⟩ st now).1.success = false ∧
      (handleSetConnection ⟨some s, none, none, none, none⟩ st now).1.suggestion
        = some ("tcp://" ++ s) ∧
      (handleSetConnection ⟨some s, none, none, none, none⟩ st now).2 = st) ∧
    (∀ (s : String) (st : MgrState) (now : Nat),
      s ≠ "" → s ≠ "null" → matchesTcpPattern s = false → matchesIpOnly s = false →
      matchesIpWithPort s = false →
      (handleSetConnection ⟨some s, none, none, none, none⟩ st now).1.success = false ∧
      (handleSetConnection ⟨some s, none, none, none, none⟩ st now).1.error
        = some "docker_host 格式错误，必须是 tcp://IP:端口 格式（如 tcp://192.168.1.100:2375）" ∧
      (handleSetConnection ⟨some s, none, none, none, none⟩ st now).1.suggestion = none ∧
      (handleSetConnection ⟨some s, none, none, none, none⟩ st now).2 = st) := by
  refine ⟨aux_tcpShape_iff, ?_, ?_, ?_, ?_⟩
  · intro s st now hnm hs1 hs2 htcp
    have hcond : ((s == "") || (s == "null")) = false := by
      simp [hs1, hs2]
    have h1 := aux_setDockerHost_state st (some s) now hnm
    have hnm1 : ∀ l ∈ ({ st with config := stampDockerHost st.config (some s) now } : MgrState).listeners,
        NonMutating l := hnm
    have htail := aux_setConnTail ⟨some s, none, none, none, none⟩
      ({ st with config := stampDockerHost st.config (some s) now }) now hnm1
    have hred : handleSetConnection ⟨some s, none, none, none, none⟩ st now
        = setConnTail ⟨some s, none, none, none, none⟩
            ({ st with config := stampDockerHost st.config (some s) now }) now := by
      simp only [handleSetConnection, hcond, Bool.false_eq_true, if_false, htcp, if_true]
      rw [h1]
    rw [hred]
    refine ⟨by rw [htail.1], ?_⟩
    rw [htail.2.1]
    rfl
  · intro s st now hs1 hs2 htcp hio
    have hcond : ((s == "") || (s == "null")) = false := by
      simp [hs1, hs2]
    refine ⟨?_, ?_, ?_⟩ <;>
      simp [handleSetConnection, hcond, htcp, hio]
  · intro s st now hs1 hs2 htcp hio hip
    have hcond : ((s == "") || (s == "null")) = false := by
      simp [hs1, hs2]
    refine ⟨?_, ?_, ?_⟩ <;>
      simp [handleSetConnection, hcond, htcp, hio, hip]
  · intro s st now hs1 hs2 htcp hio hip
    have hcond : ((s == "") || (s == "null")) = false := by
      simp [hs1, hs2]
    refine ⟨?_, ?_, ?_, ?_⟩ <;>
      simp [handleSetConnection, hcond, htcp, hio, hip]

/-- C4 counterexample: `tcp://1.2.3.4:99999` is accepted and applied to
the session store although 99999 is outside 1–65535, and
`http://1.2.3.4:2375` — a well-formed scheme://host:port address with
an in-range port — is rejected with the generic format error. -/
theorem address_validation_counterexample :
    (handleSetConnection ⟨some "tcp://1.2.3.4:99999", none, none, none, none⟩
        exState 0).1.success = true ∧
    (handleSetConnection ⟨some "tcp://1.2.3.4:99999", none, none, none, none⟩
        exState 0).2.config.dockerHost = some "tcp://1.2.3.4:99999" ∧
    65535 < 99999 ∧
    (handleSetConnection ⟨some "http://1.2.3.4:2375", none, none, none, none⟩
        exState 0).1.success = false ∧
    (handleSetConnection ⟨some "http://1.2.3.4:2375", none, none, none, none⟩
        exState 0).1.suggestion = none := by
  decide

/-- Witness for C4's amended validation behaviour at concrete inputs. -/
theorem address_validation_amended_witness :
    TcpShape "tcp://192.168.1.100:2375" ∧
    (handleSetConnection ⟨some "192.168.1.100", none, none, none, none⟩
        exState 9).1.suggestion = some "tcp://192.168.1.100:2375" ∧
    (handleSetConnection ⟨some "192.168.1.100:2375", none, none, none, none⟩
        exState 9).1.suggestion = some "tcp://192.168.1.100:2375" ∧
    (handleSetConnection ⟨some "localhost", none, none, none, none⟩
        exState 9).1.suggestion = none := by
  have h := address_validation_amended
  refine ⟨(h.1 "tcp://192.168.1.100:2375").mp (by decide), ?_, ?_, ?_⟩
  · have h2 := (h.2.2.1 "192.168.1.100" exState 9 (by decide) (by decide)
      (by decide) (by decide)).2.1
    rw [h2]
    decide
  · have h2 := (h.2.2.2.1 "192.168.1.100:2375" exState 9 (by decide) (by decide)
      (by decide) (by decide) (by decide)).2.1
    rw [h2]
    decide
  · exact (h.2.2.2.2 "localhost" exState 9 (by decide) (by decide) (by decide)
      (by decide) (by decide)).2.2.1

/-- C5 (amended): in the single-target client every backend call runs
through `withTimeout` — exemplified by `listContainers`, which turns a
never-settling backend into a data-level failure carrying the timeout
text for its operation at the default 10,000 ms bound — and
`withTimeout` itself rejects any operation that does not settle
strictly before the deadline with an error carrying the operation name
and the bound, passes through the operation's own settlement otherwise,
and clears the deadline timer on every path.  The multi-source client's
per-source calls, however, bypass the wrapper entirely; see the
counterexample. -/
theorem timeout_guard_amended :
    (∀ (α : Type) (op : OpBehavior α) (ms : Nat) (oper : String) (t : Nat),
      op.settlesAt = some t → ms ≤ t →
      withTimeout op ms oper = (.fail (timeoutErr oper ms), true)) ∧
    (∀ (α : Type) (op : OpBehavior α) (ms : Nat) (oper : String),
      op.settlesAt = none →
      withTimeout op ms oper = (.fail (timeoutErr oper ms), true)) ∧
    (∀ (α : Type) (op : OpBehavior α) (ms : Nat) (oper : String) (t : Nat),
      op.settlesAt = some t → t < ms →
      withTimeout op ms oper = (op.result, true)) ∧
    (∀ (α : Type) (op : OpBehavior α) (ms : Nat) (oper : String),
      (withTimeout op ms oper).2 = true) ∧
    (∀ (oper : String) (ms : Nat), ∃ mid last,
      (timeoutErr oper ms).message = oper ++ mid ++ toString (ms / 1000) ++ last) ∧
    (∀ (α : Type) (paramHost sessionHost envHost : Option String)
        (op : OpBehavior (List α)) (h : String),
      getEffectiveDockerHost paramHost sessionHost envHost = some h →
      createDockerClient h ≠ none →
      op.settlesAt = none →
      (singleListContainers paramHost sessionHost envHost op).success = false ∧
      (singleListContainers paramHost sessionHost envHost op).error
        = some ("查询失败: " ++ timeoutMessage "列出容器" DEFAULT_TIMEOUT)) := by
  refine ⟨?_, ?_, ?_, ?_, ?_, ?_⟩
  · intro α op ms oper t hset hle
    simp [withTimeout, hset, not_lt.mpr hle]
  · intro α op ms oper hset
    simp [withTimeout, hset]
  · intro α op ms oper t hset hlt
    simp [withTimeout, hset, hlt]
  · intro α op ms oper
    cases hset : op.settlesAt with
    | none => simp [withTimeout, hset]
    | some t =>
      by_cases hlt : t < ms
      · simp [withTimeout, hset, hlt]
      · simp [withTimeout, hset, hlt]
  · intro oper ms
    exact ⟨"超时（",
      "秒）- 请检查：1) Docker 服务是否运行 2) 端口是否正确 3) 防火墙是否放行", rfl⟩
  · intro α paramHost sessionHost envHost op h hhost hclient hnever
    cases hcc : createDockerClient h with
    | none => exact absurd hcc hclient
    | some c =>
      have hto : withTimeout op DEFAULT_TIMEOUT "列出容器"
          = (.fail (timeoutErr "列出容器" DEFAULT_TIMEOUT), true) := by
        simp [withTimeout, hnever]
      constructor
      · simp only [singleListContainers, hhost, hcc, hto]
      · simp only [singleListContainers, hhost, hcc, hto]
        rfl

/-- Witness for C5's amended timeout behaviour at concrete inputs. -/
theorem timeout_guard_amended_witness :
    withTimeout (⟨some 50000, BackendReply.ok [0]⟩ : OpBehavior (List Nat))
        DEFAULT_TIMEOUT "列出容器"
      = (.fail (timeoutErr "列出容器" DEFAULT_TIMEOUT), true) ∧
    withTimeout (⟨some 5, BackendReply.ok [0]⟩ : OpBehavior (List Nat))
        DEFAULT_TIMEOUT "列出容器"
      = (.ok [0], true) ∧
    (singleListContainers (some "tcp://1.2.3.4:2375") none none
        (⟨none, BackendReply.ok ([] : List Nat)⟩ : OpBehavior (List Nat))).success
      = false := by
  have h := timeout_guard_amended
  refine ⟨h.1 (List Nat) ⟨some 50000, .ok [0]⟩ DEFAULT_TIMEOUT "列出容器" 50000 rfl
      (by norm_num [DEFAULT_TIMEOUT]),
    h.2.2.1 (List Nat) ⟨some 5, .ok [0]⟩ DEFAULT_TIMEOUT "列出容器" 5 rfl
      (by norm_num [DEFAULT_TIMEOUT]),
    (h.2.2.2.2.2 Nat (some "tcp://1.2.3.4:2375") none none
      ⟨none, .ok []⟩ "tcp://1.2.3.4:2375" (by decide) (by decide) rfl).1⟩

/-- C5 counterexample: a per-source backend call of the multi-source
`listContainers` is not routed through the timeout wrapper — a backend
that settles only at 70,000 ms, seven times the default 10,000 ms
deadline, still yields its plain ok outcome there instead of a timeout
error, and one that never settles leaves the per-source call pending
forever rather than failing at the deadline. -/
theorem timeout_guard_counterexample :
    multiListOneTimed exSrcA (⟨some (7 * DEFAULT_TIMEOUT), .ok []⟩ : OpBehavior (List Nat))
      = some { name := "阿里云 ECS", kind := SrcKind.remoteSrc, host := "1.2.3.4:2375"
             , result := QueryResult.ok [] } ∧
    DEFAULT_TIMEOUT < 7 * DEFAULT_TIMEOUT ∧
    multiListOneTimed exSrcA (⟨none, .ok ([] : List Nat)⟩ : OpBehavior (List Nat))
      = none := by
  decide

/-- Witness for C7 at a concrete state, environment and time. -/
theorem read_reset_idempotence_amended_witness :
    (getConfigCall (resetToEnv exState exEnv 3).1).1 = cfgFromEnv exEnv 3 := by
  have h := read_reset_idempotence_amended exState exEnv 3 3 (by intro l hl; simp [exState] at hl)
  exact h.2.1

end DockerMCP
